import Mathlib

/-!
Verification of the cross-chain swap orchestration scripts (backend relayer and
swap scripts).  The definitions below are a shallow embedding of the JavaScript
sources: big integers (`uint256`, addresses, hashes) become `Nat`, the packed
timelocks word keeps the exact bit operations of the source, escrow interactions
become an explicit event trace produced by an interpreter that is parameterised
by an environment describing the outcomes of the external ledger calls.
-/

namespace CrossSwap

/-! ## Timelocks

The scripts stamp a deployment timestamp into the packed timelocks word with
`(timelocks & 0xFF...FF00000000n) | BigInt(timestamp)`.  The mask literal below
is copied verbatim from the sources (part_003 line 214/875, part_004 lines
397/696, arb-sep-mul-fixed.js lines 401/1012, part_006 lines 299/447).  Note the
literal has 54 `F` digits followed by 8 zero digits, i.e. it is `2^248 - 2^32`,
eight bits short of a full 256-bit keep-everything-but-the-low-32-bits mask. -/

def TIMELOCKS_MASK : Nat :=
  0xFFFFFFFFFFFFFFFFFFFFFFFFFFFFFFFFFFFFFFFFFFFFFFFFFFFFFF00000000

/-- Deployment stamping as implemented in the scripts:
`(timelocks & 0xFF...FF00000000) | deployedAt`. -/
def stampDeployedAt (timelocks deployedAt : Nat) : Nat :=
  (timelocks &&& TIMELOCKS_MASK) ||| deployedAt

/-- Modelled from the spec: the packed timelocks layout.  The SDK file
(`tests/custom-sdk.js`, whose `TimeLocks.new` builds the packed word) is not in
the repository; the spec says the record packs seven 32-bit relative offsets
plus a 32-bit `deployedAt` timestamp into one wide integer, and the mask used by
the stamping code shows that `deployedAt` occupies the low 32 bits.  Hence the
`deployedAt` sub-field is bits `0..31`. -/
def deployedAtField (t : Nat) : Nat := t % 2 ^ 32

/-- Modelled from the spec: offset sub-field number `k` (for `1 ≤ k ≤ 7`) of the
packed timelocks word occupies bits `32*k .. 32*k+31` (see `deployedAtField`). -/
def offsetField (t k : Nat) : Nat := (t >>> (32 * k)) % 2 ^ 32

/-- Modelled from the spec: the monotonic-ordering invariant on the seven
offsets (source: withdrawal ≤ public-withdrawal ≤ cancellation ≤
public-cancellation, fields 1..4; destination: withdrawal ≤ public-withdrawal ≤
cancellation, fields 5..7). -/
def TimelockOrderingOk (t : Nat) : Prop :=
  offsetField t 1 ≤ offsetField t 2 ∧ offsetField t 2 ≤ offsetField t 3 ∧
  offsetField t 3 ≤ offsetField t 4 ∧
  offsetField t 5 ≤ offsetField t 6 ∧ offsetField t 6 ≤ offsetField t 7

instance (t : Nat) : Decidable (TimelockOrderingOk t) := by
  unfold TimelockOrderingOk; infer_instance

/-! ## Immutables

The per-escrow parameter tuple, from the ABI tuple used throughout the scripts:
`(bytes32 orderHash, bytes32 hashlock, uint256 maker, uint256 taker,
uint256 token, uint256 amount, uint256 safetyDeposit, uint256 timelocks)`. -/

structure Immutables where
  orderHash : Nat
  hashlock : Nat
  maker : Nat
  taker : Nat
  token : Nat
  amount : Nat
  safetyDeposit : Nat
  timelocks : Nat
deriving DecidableEq, Repr

/-- The record returned by the SDK call `order.toSrcImmutables(chainId, taker,
amount, hashlock)` as consumed by the scripts (they read the fields
`orderHash`, `hashlock`, `maker`, `taker`, `token`, `amount`, `timelocks`).
The SDK itself is not in the repository, so the record is kept abstract: its
fields are inputs of the embedding. -/
structure RawImmutables where
  orderHash : Nat
  hashlock : Nat
  maker : Nat
  taker : Nat
  token : Nat
  amount : Nat
  timelocks : Nat
deriving DecidableEq, Repr

/-- Source-side immutables as assembled by the `/api/create-order` handler
(part_003 lines 216-225 and 877-886) and by the swap scripts (part_004 lines
402-411): the raw SDK record with the configured safety deposit and the
deployedAt-stamped timelocks. -/
def mkSrcImmutables (raw : RawImmutables) (safetyDeposit currentTimestamp : Nat) :
    Immutables :=
  { orderHash := raw.orderHash
    hashlock := raw.hashlock
    maker := raw.maker
    taker := raw.taker
    token := raw.token
    amount := raw.amount
    safetyDeposit := safetyDeposit
    timelocks := stampDeployedAt raw.timelocks currentTimestamp }

/-- Destination-side immutables as assembled next to `mkSrcImmutables`
(part_003 lines 227-236 and 888-897, part_004 lines 413-422): same orderHash,
hashlock and maker; taker replaced by the destination-side user, token replaced
by the destination-chain token, amount set to the fill amount, and the very same
deployedAt-stamped timelocks word. -/
def mkDstImmutables (raw : RawImmutables)
    (dstTaker dstToken fillAmount safetyDeposit currentTimestamp : Nat) :
    Immutables :=
  { orderHash := raw.orderHash
    hashlock := raw.hashlock
    maker := raw.maker
    taker := dstTaker
    token := dstToken
    amount := fillAmount
    safetyDeposit := safetyDeposit
    timelocks := stampDeployedAt raw.timelocks currentTimestamp }

/-! ## Swap registry

The backend relayer keeps `const activeSwaps = new Map()` keyed by the order
hash.  Entries are the object literals stored by `/api/create-order`
(part_003 lines 940-953); the fields `srcEscrowAddress`, `dstEscrowAddress`,
`error`, `completedAt` and `signature` are attached later during execution, so
they are `Option`-valued here and `none` at creation.  (The stored object also
carries the EIP-712 signing payload `typedData`, which no claim concerns and
which is omitted.) -/

structure SwapEntry where
  orderHash : Nat
  secret : Nat
  hashlock : Nat
  amount : Nat
  userAddress : Nat
  srcImmutables : Immutables
  dstImmutables : Immutables
  srcFactoryAddress : Nat
  dstFactoryAddress : Nat
  status : String
  createdAt : Nat
  srcEscrowAddress : Option Nat := none
  dstEscrowAddress : Option Nat := none
  error : Option String := none
  completedAt : Option Nat := none
deriving DecidableEq, Repr

/-- The in-memory registry `activeSwaps`, as a partial map from swap id (order
hash) to entry. -/
def Registry := Nat → Option SwapEntry

/-- Embedding of `activeSwaps.set(key, value)`. -/
def registrySet (r : Registry) (key : Nat) (value : SwapEntry) : Registry :=
  fun k => if k = key then some value else r k

/-- Embedding of `activeSwaps.get(key)`. -/
def registryGet (r : Registry) (key : Nat) : Option SwapEntry := r key

/-- The entry stored by the `/api/create-order` handler (part_003 lines
940-953): status `created`, secret and hashlock kept, both immutables derived
via `mkSrcImmutables` and `mkDstImmutables`; no escrow address, error or
version information is present at creation time. -/
def createOrderEntry (orderHash secret hashlock swapAmount userAddress : Nat)
    (raw : RawImmutables)
    (srcFactoryAddress dstFactoryAddress dstTokenAddress : Nat)
    (safetyDeposit currentTimestamp createdAt : Nat) : SwapEntry :=
  { orderHash := orderHash
    secret := secret
    hashlock := hashlock
    amount := swapAmount
    userAddress := userAddress
    srcImmutables := mkSrcImmutables raw safetyDeposit currentTimestamp
    dstImmutables :=
      mkDstImmutables raw userAddress dstTokenAddress swapAmount safetyDeposit
        currentTimestamp
    srcFactoryAddress := srcFactoryAddress
    dstFactoryAddress := dstFactoryAddress
    status := "created"
    createdAt := createdAt }

/-- The registry effect of the `/api/create-order` handler: the entry is stored
under `swapId = orderHash` (part_003 lines 938-940). -/
def createOrderRoute (r : Registry) (orderHash secret hashlock swapAmount
    userAddress : Nat) (raw : RawImmutables)
    (srcFactoryAddress dstFactoryAddress dstTokenAddress : Nat)
    (safetyDeposit currentTimestamp createdAt : Nat) : Registry :=
  registrySet r orderHash
    (createOrderEntry orderHash secret hashlock swapAmount userAddress raw
      srcFactoryAddress dstFactoryAddress dstTokenAddress safetyDeposit
      currentTimestamp createdAt)

/-! ## Swap status endpoint

`GET /api/swap-status/:swapId` (part_003 lines 1049-1072; the first relayer
variant, lines 422-445, builds the identical response shape). -/

structure SwapStatusDetails where
  amount : Nat
  userAddress : Nat
  createdAt : Nat
  srcEscrowAddress : Option Nat
  dstEscrowAddress : Option Nat
deriving DecidableEq, Repr

structure SwapStatusResponse where
  success : Bool
  status : String
  swapId : Nat
  details : SwapStatusDetails
deriving DecidableEq, Repr

/-- The status route: `none` models the 404 "Swap not found" reply; otherwise
the JSON body built at part_003 lines 1060-1071 (amount is kept as the raw
integer rather than the `formatUnits` string rendering). -/
def swapStatusRoute (activeSwaps : Registry) (swapId : Nat) :
    Option SwapStatusResponse :=
  match registryGet activeSwaps swapId with
  | none => none
  | some swapData =>
    some
      { success := true
        status := swapData.status
        swapId := swapId
        details :=
          { amount := swapData.amount
            userAddress := swapData.userAddress
            createdAt := swapData.createdAt
            srcEscrowAddress := swapData.srcEscrowAddress
            dstEscrowAddress := swapData.dstEscrowAddress } }

/-! ## Escrow address derivation of `cross-chain-swap.js`

`performCrossChainSwap` computes (lines 217 and 249):
`'0x' + keccak256(solidityPacked(['bytes32','address'],
[immutables.orderHash, walletAddress])).substring(0, 40)`.
The packed hash input therefore consists of exactly the order hash and the
wallet address; no other immutables field enters the computation.  The
derivation is the keccak hash applied to that preimage (the `substring` /
prefixing step is a post-processing of the digest string and is absorbed into
the abstract hash parameter). -/

def escrowAddressPreimage (immutables : Immutables) (walletAddress : Nat) :
    Nat × Nat :=
  (immutables.orderHash, walletAddress)

/-- The full derivation, parameterised by the (abstract) keccak-and-truncate
digest function applied to the packed preimage. -/
def performCrossChainSwapEscrowAddress (digest : Nat × Nat → Nat)
    (immutables : Immutables) (walletAddress : Nat) : Nat :=
  digest (escrowAddressPreimage immutables walletAddress)

/-! ## Ledger events

External ledger interactions are recorded as an event trace.  Every event is
tagged with the chain it runs on (`Side.src` / `Side.dst`, matching the
`srcRelayer` / `dstRelayer` signers and providers of the scripts).  A withdraw
call carries exactly the arguments of the escrow ABI
`withdraw(bytes32 secret, tuple immutables)`; the ABI has no Merkle-proof
parameter, so the `proof` component records what, if anything, accompanies the
secret (always `none` in the sources). -/

inductive Side where
  | src
  | dst
deriving DecidableEq, Repr

inductive Event where
  | readAllowance (side : Side) (owner spender value : Nat)
  | readBalance (side : Side) (holder value : Nat)
  | approve (side : Side) (spender amount : Nat)
  | createDstEscrow (immutables : Immutables) (srcCancellationTimestamp : Nat)
  | createSrcEscrow (immutables : Immutables)
  | transferFrom (side : Side) (sender recipient amount : Nat)
  | withdraw (side : Side) (escrow secret : Nat) (immutables : Immutables)
      (proof : Option (List Nat))
  | transfer (side : Side) (recipient amount : Nat)
deriving DecidableEq, Repr

/-- Whether an event submits a secret to an escrow withdraw call. -/
def isWithdrawEvent : Event → Bool
  | .withdraw _ _ _ _ _ => true
  | _ => false

def isSrcWithdrawEvent : Event → Bool
  | .withdraw .src _ _ _ _ => true
  | _ => false

def isDstWithdrawEvent : Event → Bool
  | .withdraw .dst _ _ _ _ => true
  | _ => false

def isCreateSrcEscrowEvent : Event → Bool
  | .createSrcEscrow _ => true
  | _ => false

def hasWithdraw (trace : List Event) : Bool := trace.any isWithdrawEvent

def hasSrcWithdraw (trace : List Event) : Bool := trace.any isSrcWithdrawEvent

def hasDstWithdraw (trace : List Event) : Bool := trace.any isDstWithdrawEvent

def hasCreateSrcEscrow (trace : List Event) : Bool :=
  trace.any isCreateSrcEscrowEvent

/-! ## The final backend relayer (`executeSwapAsync`, part_003 lines 1074-1667)

The interpreter is parameterised by an environment fixing the values returned
by the external ledger and the eventual outcome of each fallible step.  Each
`...Ok` flag covers the primary attempt together with its in-code
higher-gas-limit retry: the step succeeds (its call happened) iff the flag is
`true`, otherwise the step's `throw new Error(...)` escalates to the outer
catch, which records status `failed` and the error message.  Console logging,
gas estimation and the fixed waits carry no ledger effect and emit no event. -/

structure RelayerEnv where
  now : Nat
  srcRelayerAddress : Nat
  dstRelayerAddress : Nat
  /-- `dstToken.allowance(dstRelayer, dstFactory)` read in step 1. -/
  dstAllowance : Nat
  /-- `dstToken.balanceOf(dstRelayer)` read in step 1 (only read when the
  allowance is insufficient; note the code's insufficient-balance throw is
  itself caught by the step-1 catch, which retries the approval, so the balance
  value does not by itself decide the outcome). -/
  dstRelayerBalance : Nat
  dstApproveOk : Bool
  /-- `dstToken.balanceOf(dstRelayer)` read again in step 2. -/
  dstRelayerBalance2 : Nat
  dstCreateOk : Bool
  dstEscrowAddr : Nat
  /-- `srcToken.allowance(userAddress, srcRelayer)` at polling attempt `i`;
  `none` models an RPC error on that attempt (caught, attempt consumed). -/
  srcAllowanceAt : Nat → Option Nat
  transferFromOk : Bool
  /-- `srcToken.allowance(srcRelayer, srcFactory)` read in step 4. -/
  srcRelayerAllowance : Nat
  srcApproveOk : Bool
  srcCreateOk : Bool
  srcEscrowAddr : Nat
  /-- escrow token balances read by the step-6 funds verification. -/
  srcEscrowBal : Nat
  dstEscrowBal : Nat
  srcEscrowBalBefore : Nat
  srcWithdrawOk : Bool
  srcEscrowBalAfter : Nat
  dstEscrowBalBefore : Nat
  dstWithdrawOk : Bool
  dstEscrowBalAfter : Nat
  transferOk : Bool

/-- The number of allowance-polling attempts: `const maxAttempts = 60`. -/
def maxApprovalAttempts : Nat := 60

/-- The approval polling loop (part_003 lines 1284-1303): read the allowance,
stop as soon as it reaches the amount, otherwise wait and retry; an RPC error
also consumes an attempt.  `i` is the current attempt counter, `fuel` the
remaining attempts. -/
def pollLoop (f : Nat → Option Nat) (userAddress spender amount : Nat) :
    Nat → Nat → List Event × Bool
  | _, 0 => ([], false)
  | i, fuel + 1 =>
    match f i with
    | some v =>
      if amount ≤ v then ([Event.readAllowance .src userAddress spender v], true)
      else
        let rest := pollLoop f userAddress spender amount (i + 1) fuel
        (Event.readAllowance .src userAddress spender v :: rest.1, rest.2)
    | none => pollLoop f userAddress spender amount (i + 1) fuel

/-- Step 1: relayer approves USDC on the destination chain (lines 1085-1131). -/
def phaseApproveDst (env : RelayerEnv) (s : SwapEntry) :
    List Event × Option String :=
  let ev0 := Event.readAllowance .dst env.dstRelayerAddress s.dstFactoryAddress
    env.dstAllowance
  if env.dstAllowance < s.amount then
    let ev1 := Event.readBalance .dst env.dstRelayerAddress env.dstRelayerBalance
    if env.dstApproveOk then
      ([ev0, ev1, Event.approve .dst s.dstFactoryAddress s.amount], none)
    else ([ev0, ev1], some "Failed to approve USDC on destination chain")
  else ([ev0], none)

/-- Step 2: relayer creates the destination escrow (lines 1133-1277).  The
balance is read again; the insufficient-balance throw and the `createDstEscrow`
failure are both caught by the step-2 catch, which retries `createDstEscrow`
with a fixed gas limit, so `dstCreateOk` decides whether a destination escrow
ends up created and its address recovered from the receipt logs. -/
def phaseCreateDstEscrow (env : RelayerEnv) (s : SwapEntry) :
    List Event × Option String :=
  let ev0 := Event.readBalance .dst env.dstRelayerAddress env.dstRelayerBalance2
  if env.dstCreateOk then
    ([ev0, Event.createDstEscrow s.dstImmutables (env.now + 3600)], none)
  else ([ev0], some "Failed to create destination escrow")

/-- Step 3: wait for the user approval on the source chain (lines 1279-1307);
the polling target is `allowance(userAddress, srcRelayer.address)`. -/
def phaseWaitSrcApproval (env : RelayerEnv) (s : SwapEntry) :
    List Event × Option String :=
  let poll := pollLoop env.srcAllowanceAt s.userAddress env.srcRelayerAddress
    s.amount 0 maxApprovalAttempts
  if poll.2 then (poll.1, none)
  else (poll.1, some "User approval timeout - user must approve USDC spending")

/-- Step 4a: transfer the USDC from the user to the relayer (lines 1309-1322). -/
def phaseTransferFromUser (env : RelayerEnv) (s : SwapEntry) :
    List Event × Option String :=
  if env.transferFromOk then
    ([Event.transferFrom .src s.userAddress env.srcRelayerAddress s.amount], none)
  else ([], some "Failed to transfer USDC from user")

/-- Step 4b: relayer approves USDC on the source chain (lines 1324-1359). -/
def phaseApproveSrc (env : RelayerEnv) (s : SwapEntry) :
    List Event × Option String :=
  let ev0 := Event.readAllowance .src env.srcRelayerAddress s.srcFactoryAddress
    env.srcRelayerAllowance
  if env.srcRelayerAllowance < s.amount then
    if env.srcApproveOk then
      ([ev0, Event.approve .src s.srcFactoryAddress s.amount], none)
    else ([ev0], some "Failed to approve USDC on source chain")
  else ([ev0], none)

/-- Step 5: create the source escrow (lines 1361-1523). -/
def phaseCreateSrcEscrow (env : RelayerEnv) (s : SwapEntry) :
    List Event × Option String :=
  if env.srcCreateOk then ([Event.createSrcEscrow s.srcImmutables], none)
  else ([], some "Failed to create source escrow")

/-- Step 6: verify the funds are locked (lines 1525-1542): read both escrow
token balances and require each to be at least the fill amount, otherwise
`throw new Error('Funds not properly locked in escrow contracts')`.  (The two
native-coin balance reads of the same step carry no token information and are
not traced.) -/
def phaseVerifyFunds (env : RelayerEnv) (s : SwapEntry) :
    List Event × Option String :=
  let evs := [Event.readBalance .src env.srcEscrowAddr env.srcEscrowBal,
    Event.readBalance .dst env.dstEscrowAddr env.dstEscrowBal]
  if s.amount ≤ env.srcEscrowBal ∧ s.amount ≤ env.dstEscrowBal then (evs, none)
  else (evs, some "Funds not properly locked in escrow contracts")

/-- Step 8: withdraw from the source escrow (lines 1548-1594), submitting the
stored secret together with the source immutables; the escrow ABI has no proof
argument. -/
def phaseWithdrawSrc (env : RelayerEnv) (s : SwapEntry) :
    List Event × Option String :=
  let ev0 := Event.readBalance .src env.srcEscrowAddr env.srcEscrowBalBefore
  if env.srcWithdrawOk then
    ([ev0, Event.withdraw .src env.srcEscrowAddr s.secret s.srcImmutables none,
      Event.readBalance .src env.srcEscrowAddr env.srcEscrowBalAfter], none)
  else ([ev0], some "Failed to withdraw from source escrow")

/-- Step 9: withdraw from the destination escrow (lines 1596-1642). -/
def phaseWithdrawDst (env : RelayerEnv) (s : SwapEntry) :
    List Event × Option String :=
  let ev0 := Event.readBalance .dst env.dstEscrowAddr env.dstEscrowBalBefore
  if env.dstWithdrawOk then
    ([ev0, Event.withdraw .dst env.dstEscrowAddr s.secret s.dstImmutables none,
      Event.readBalance .dst env.dstEscrowAddr env.dstEscrowBalAfter], none)
  else ([ev0], some "Failed to withdraw from destination escrow")

/-- Step 10: transfer the destination tokens to the user (lines 1644-1653). -/
def phaseTransferToUser (env : RelayerEnv) (s : SwapEntry) :
    List Event × Option String :=
  if env.transferOk then ([Event.transfer .dst s.userAddress s.amount], none)
  else ([], some "Failed to transfer tokens to user")

/-- Final entry on the failure path (part_003 lines 1661-1666): status
`failed`, error message recorded. -/
def markFailed (s : SwapEntry) (msg : String) : SwapEntry :=
  { s with status := "failed", error := some msg }

/-- The final backend relayer execution `executeSwapAsync(swapData)`
(part_003 lines 1074-1667), returning the final registry entry and the trace of
ledger events.  Escrow addresses are attached to the entry as soon as they are
recovered; a thrown error anywhere lands in the outer catch (`markFailed`).
The source mutates `swapData` in place, but the fields the steps read (amount,
userAddress, factory addresses, secret, both immutables) are never mutated, so
the phases receive the original entry `s` unchanged while the returned entry
carries the status/address updates. -/
def executeSwapAsync (env : RelayerEnv) (s : SwapEntry) :
    SwapEntry × List Event :=
  let p1 := phaseApproveDst env s
  match p1.2 with
  | some m => (markFailed s m, p1.1)
  | none =>
  let p2 := phaseCreateDstEscrow env s
  match p2.2 with
  | some m => (markFailed s m, p1.1 ++ p2.1)
  | none =>
  let s2 := { s with
              status := "waiting_src_approval"
              dstEscrowAddress := some env.dstEscrowAddr }
  let p3 := phaseWaitSrcApproval env s
  match p3.2 with
  | some m => (markFailed s2 m, p1.1 ++ p2.1 ++ p3.1)
  | none =>
  let p4 := phaseTransferFromUser env s
  match p4.2 with
  | some m => (markFailed s2 m, p1.1 ++ p2.1 ++ p3.1 ++ p4.1)
  | none =>
  let p5 := phaseApproveSrc env s
  match p5.2 with
  | some m => (markFailed s2 m, p1.1 ++ p2.1 ++ p3.1 ++ p4.1 ++ p5.1)
  | none =>
  let p6 := phaseCreateSrcEscrow env s
  match p6.2 with
  | some m => (markFailed s2 m, p1.1 ++ p2.1 ++ p3.1 ++ p4.1 ++ p5.1 ++ p6.1)
  | none =>
  let s3 := { s2 with
              status := "creating_src_escrow"
              srcEscrowAddress := some env.srcEscrowAddr }
  let p7 := phaseVerifyFunds env s
  match p7.2 with
  | some m =>
    (markFailed s3 m, p1.1 ++ p2.1 ++ p3.1 ++ p4.1 ++ p5.1 ++ p6.1 ++ p7.1)
  | none =>
  let p8 := phaseWithdrawSrc env s
  match p8.2 with
  | some m =>
    (markFailed s3 m,
      p1.1 ++ p2.1 ++ p3.1 ++ p4.1 ++ p5.1 ++ p6.1 ++ p7.1 ++ p8.1)
  | none =>
  let p9 := phaseWithdrawDst env s
  match p9.2 with
  | some m =>
    (markFailed s3 m,
      p1.1 ++ p2.1 ++ p3.1 ++ p4.1 ++ p5.1 ++ p6.1 ++ p7.1 ++ p8.1 ++ p9.1)
  | none =>
  let p10 := phaseTransferToUser env s
  match p10.2 with
  | some m =>
    (markFailed s3 m,
      p1.1 ++ p2.1 ++ p3.1 ++ p4.1 ++ p5.1 ++ p6.1 ++ p7.1 ++ p8.1 ++ p9.1 ++
        p10.1)
  | none =>
    ({ s3 with status := "completed", completedAt := some env.now },
      p1.1 ++ p2.1 ++ p3.1 ++ p4.1 ++ p5.1 ++ p6.1 ++ p7.1 ++ p8.1 ++ p9.1 ++
        p10.1)

/-! ## The first backend relayer (`executeSwapAsync`, part_003 lines 448-613)

The earlier relayer variant in the same source file.  Its execution has no
funds-verification step: after creating both escrows it waits ten seconds and
withdraws directly.  The only balance it ever reads is the relayer's own
destination-token balance.  Branches not exercised by the theorems below
(raw provider errors) carry abstracted error messages. -/

structure LegacyEnv where
  now : Nat
  srcRelayerAddress : Nat
  dstRelayerAddress : Nat
  /-- `dstToken.balanceOf(dstRelayer.address)` (line 463). -/
  dstRelayerBalance : Nat
  dstApproveOk : Bool
  dstCreateOk : Bool
  dstEscrowAddr : Nat
  /-- `srcToken.allowance(userAddress, srcFactoryAddress)` at attempt `i`
  (line 518). -/
  srcAllowanceAt : Nat → Option Nat
  srcCreateOk : Bool
  srcEscrowAddr : Nat
  srcWithdrawOk : Bool
  dstWithdrawOk : Bool
  transferOk : Bool

/-- The first-variant relayer execution (part_003 lines 448-613).  Steps:
check the relayer's destination balance (throwing when it is below the amount,
line 464-466), approve, create the destination escrow, poll the allowance of
the user towards the source factory, create the source escrow, wait ten
seconds, withdraw from the source escrow, withdraw from the destination
escrow, transfer to the user.  No escrow balance is ever read. -/
def executeSwapAsyncLegacy (env : LegacyEnv) (s : SwapEntry) :
    SwapEntry × List Event :=
  let ev0 := Event.readBalance .dst env.dstRelayerAddress env.dstRelayerBalance
  if env.dstRelayerBalance < s.amount then
    (markFailed s "Insufficient relayer balance on destination chain", [ev0])
  else if ¬ env.dstApproveOk then
    (markFailed s "destination approval error", [ev0])
  else
  let evA := [ev0, Event.approve .dst s.dstFactoryAddress s.amount]
  if ¬ env.dstCreateOk then
    (markFailed s "Could not find destination escrow address", evA)
  else
  let evB := evA ++ [Event.createDstEscrow s.dstImmutables (env.now + 3600)]
  let s2 := { s with
              status := "waiting_src_approval"
              dstEscrowAddress := some env.dstEscrowAddr }
  let poll := pollLoop env.srcAllowanceAt s.userAddress s.srcFactoryAddress
    s.amount 0 maxApprovalAttempts
  let evC := evB ++ poll.1
  if ¬ poll.2 then (markFailed s2 "User approval timeout", evC)
  else if ¬ env.srcCreateOk then
    (markFailed s2 "Could not find source escrow address", evC)
  else
  let s3 := { s2 with
              status := "creating_src_escrow"
              srcEscrowAddress := some env.srcEscrowAddr }
  let evD := evC ++ [Event.createSrcEscrow s.srcImmutables]
  if ¬ env.srcWithdrawOk then (markFailed s3 "source withdrawal error", evD)
  else
  let evE := evD ++
    [Event.withdraw .src env.srcEscrowAddr s.secret s.srcImmutables none]
  if ¬ env.dstWithdrawOk then (markFailed s3 "destination withdrawal error", evE)
  else
  let evF := evE ++
    [Event.withdraw .dst env.dstEscrowAddr s.secret s.dstImmutables none]
  if ¬ env.transferOk then (markFailed s3 "token transfer error", evF)
  else
    ({ s3 with status := "completed", completedAt := some env.now },
      evF ++ [Event.transfer .dst s.userAddress s.amount])

/-! ## The multi-fill swap script (`performMultipleFillCrossChainSwap`,
part_004 lines 242-880)

The script creates the source escrow, then the destination escrow, and in its
withdrawal phase submits the chosen secret FIRST to the destination escrow
(lines 712-755) and only afterwards to the source escrow (lines 757-802).  The
Merkle proof obtained at line 376 (`Sdk.HashLock.getProof(leaves, idx)`) is
never an argument of either `withdraw(...)` call — the escrow ABI takes only
the secret and the immutables.  Failed steps `return` early (the run is marked
incomplete); a failed withdrawal is caught and merely logged, so execution
continues.  A failure of the primary `createDstEscrow` path is caught by the
outer catch (lines 859-879), whose retry skips the whole withdrawal phase. -/

structure MultiFillEnv where
  now : Nat
  srcUserAddress : Nat
  dstUserAddress : Nat
  srcFactoryAddress : Nat
  dstFactoryAddress : Nat
  initialSrcBalance : Nat
  initialDstBalance : Nat
  srcAllowance : Nat
  srcApproveOk : Bool
  srcCreateOk : Bool
  srcEscrowAddr : Nat
  dstAllowance : Nat
  dstApproveOk : Bool
  /-- `dstChain.token.balanceOf(dstChain.user.address)` (line 627). -/
  dstUserBalance : Nat
  dstCreateOk : Bool
  dstCreateRetryOk : Bool
  dstEscrowAddr : Nat
  /-- block timestamp of the destination escrow deployment (line 657). -/
  dstDeployedAt : Nat
  dstEscrowBalBefore : Nat
  dstWithdrawOk : Bool
  dstEscrowBalAfter : Nat
  srcEscrowBalBefore : Nat
  srcWithdrawOk : Bool
  srcEscrowBalAfter : Nat
  finalSrcBalance : Nat
  finalDstBalance : Nat
  finalSrcEscrowBalance : Nat
  finalDstEscrowBalance : Nat

/-- The multi-fill swap run.  Returns whether the run reached its success
summary (`true`) or hit an early `return` (`false`), together with the event
trace.  `selectedSecret` is `secrets[idx]`, `srcImmutables`/`dstImmutables` the
records built at lines 402-422; the destination withdrawal re-stamps the
destination timelocks with the actual deployment timestamp (lines 688-697). -/
def performMultipleFillCrossChainSwap (env : MultiFillEnv)
    (fillAmount selectedSecret : Nat) (srcImmutables dstImmutables : Immutables) :
    Bool × List Event :=
  let ev0 := [Event.readBalance .src env.srcUserAddress env.initialSrcBalance,
    Event.readBalance .dst env.dstUserAddress env.initialDstBalance]
  let approveSrc :=
    Event.readAllowance .src env.srcUserAddress env.srcFactoryAddress
      env.srcAllowance
  if env.srcAllowance < fillAmount ∧ ¬ env.srcApproveOk then
    (false, ev0 ++ [approveSrc])
  else
  let ev1 := ev0 ++
    (if env.srcAllowance < fillAmount then
      [approveSrc, Event.approve .src env.srcFactoryAddress fillAmount]
     else [approveSrc])
  if ¬ env.srcCreateOk then (false, ev1)
  else
  let ev2 := ev1 ++ [Event.createSrcEscrow srcImmutables]
  let approveDst :=
    Event.readAllowance .dst env.dstUserAddress env.dstFactoryAddress
      env.dstAllowance
  if env.dstAllowance < fillAmount ∧ ¬ env.dstApproveOk then
    (false, ev2 ++ [approveDst])
  else
  let ev3 := ev2 ++
    (if env.dstAllowance < fillAmount then
      [approveDst, Event.approve .dst env.dstFactoryAddress fillAmount]
     else [approveDst])
  let ev4 := ev3 ++
    [Event.readBalance .dst env.dstUserAddress env.dstUserBalance]
  if env.dstUserBalance < fillAmount then (false, ev4)
  else
  if ¬ env.dstCreateOk then
    -- the outer catch retries createDstEscrow and then falls out of the big
    -- try block: the withdrawal phase is skipped entirely (lines 859-879).
    if env.dstCreateRetryOk then
      (true, ev4 ++ [Event.createDstEscrow dstImmutables (env.now + 3600)])
    else (false, ev4)
  else
  let ev5 := ev4 ++ [Event.createDstEscrow dstImmutables (env.now + 3600)]
  let dstImmStamped := { dstImmutables with
                         timelocks :=
                           stampDeployedAt dstImmutables.timelocks
                             env.dstDeployedAt }
  -- withdrawal phase, destination escrow first (lines 712-755)
  let ev6 := ev5 ++
    [Event.readBalance .dst env.dstEscrowAddr env.dstEscrowBalBefore]
  let ev7 := ev6 ++
    (if env.dstWithdrawOk then
      [Event.withdraw .dst env.dstEscrowAddr selectedSecret dstImmStamped none,
        Event.readBalance .dst env.dstEscrowAddr env.dstEscrowBalAfter]
     else [])
  -- then the source escrow (lines 757-802)
  let ev8 := ev7 ++
    [Event.readBalance .src env.srcEscrowAddr env.srcEscrowBalBefore]
  let ev9 := ev8 ++
    (if env.srcWithdrawOk then
      [Event.withdraw .src env.srcEscrowAddr selectedSecret srcImmutables none,
        Event.readBalance .src env.srcEscrowAddr env.srcEscrowBalAfter]
     else [])
  -- final verification reads (lines 804-818)
  (true, ev9 ++
    [Event.readBalance .src env.srcUserAddress env.finalSrcBalance,
      Event.readBalance .dst env.dstUserAddress env.finalDstBalance,
      Event.readBalance .src env.srcEscrowAddr env.finalSrcEscrowBalance,
      Event.readBalance .dst env.dstEscrowAddr env.finalDstEscrowBalance])

/-! ## Trace checkers

Decidable renderings of the spec properties over event traces. -/

/-- Funds-verified-before-reveal checker: scanning the trace left to right,
every withdraw call must be preceded by a read of the source escrow token
balance (address `srcA`) with observed value at least `amount` and a read of
the destination escrow token balance (address `dstA`) with observed value at
least `amount`.  `srcSeen`/`dstSeen` carry whether such reads occurred so far. -/
def fundsCheck (amount srcA dstA : Nat) :
    Bool → Bool → List Event → Bool
  | _, _, [] => true
  | srcSeen, dstSeen, e :: rest =>
    match e with
    | .readBalance .src a v =>
      fundsCheck amount srcA dstA
        (srcSeen || (a == srcA && decide (amount ≤ v))) dstSeen rest
    | .readBalance .dst a v =>
      fundsCheck amount srcA dstA srcSeen
        (dstSeen || (a == dstA && decide (amount ≤ v))) rest
    | .withdraw _ _ _ _ _ =>
      srcSeen && dstSeen && fundsCheck amount srcA dstA srcSeen dstSeen rest
    | _ => fundsCheck amount srcA dstA srcSeen dstSeen rest

/-- Ordering checker: every destination-chain withdraw call is preceded by a
source-chain withdraw call. -/
def srcRevealFirst : Bool → List Event → Bool
  | _, [] => true
  | _, .withdraw .src _ _ _ _ :: rest => srcRevealFirst true rest
  | seen, .withdraw .dst _ _ _ _ :: rest => seen && srcRevealFirst seen rest
  | seen, _ :: rest => srcRevealFirst seen rest

/-- Payload checker: every withdraw call in the trace submits the given secret
and carries the given proof component. -/
def withdrawPayloadsAre (secret : Nat) (proof : Option (List Nat))
    (trace : List Event) : Bool :=
  trace.all (fun e =>
    match e with
    | .withdraw _ _ sec _ pr => sec == secret && pr == proof
    | _ => true)

/-! ## The fixed multi-fill script (`performMultipleFillCrossChainSwap`,
arb-sep-mul-fixed.js lines 258-1133)

The order-signing step of this script packs (lines 367-377)
`[orderHash, maker, takerAsset, makingAmount, takingAmount,
auctionStartTimestamp]`, and the identifier `auctionStartTimestamp` (line 375)
is referenced nowhere else and never declared anywhere in the script.
Evaluating it raises `ReferenceError: auctionStartTimestamp is not defined`,
which propagates out of the async function.  Everything before that point only
reads balances (lines 266-269) and does local computation; all escrow creation
and token movement comes after.  The embedding keeps the full continuation
(lines 384-1133: approvals, both escrow creations, the funds verification, the
source-then-destination withdrawals) behind the failing signing step, so the
unreachability of those ledger calls is a provable property of the control
flow. -/

/-- The signing step of arb-sep-mul-fixed.js: `ethers.solidityPacked(...)`
evaluates `auctionStartTimestamp`, an identifier with no declaration in the
script, so the step always raises a `ReferenceError`. -/
def signFixedOrder : Except String Nat :=
  .error "auctionStartTimestamp is not defined"

def performMultipleFillCrossChainSwapFixed (env : MultiFillEnv)
    (swapAmount selectedSecret : Nat) (srcImmutables dstImmutables : Immutables) :
    Option String × List Event :=
  let ev0 := [Event.readBalance .src env.srcUserAddress env.initialSrcBalance,
    Event.readBalance .dst env.dstUserAddress env.initialDstBalance]
  match signFixedOrder with
  | .error m => (some m, ev0)
  | .ok _ =>
    -- continuation, never reached: lines 384-1133
    let approveSrc :=
      Event.readAllowance .src env.srcUserAddress env.srcFactoryAddress
        env.srcAllowance
    if env.srcAllowance < swapAmount ∧ ¬ env.srcApproveOk then
      (some "src approval retry failed", ev0 ++ [approveSrc])
    else
    let ev1 := ev0 ++
      (if env.srcAllowance < swapAmount then
        [approveSrc, Event.approve .src env.srcFactoryAddress swapAmount]
       else [approveSrc])
    if ¬ env.srcCreateOk then (some "source escrow creation failed", ev1)
    else
    let ev2 := ev1 ++ [Event.createSrcEscrow srcImmutables]
    let approveDst :=
      Event.readAllowance .dst env.dstUserAddress env.dstFactoryAddress
        env.dstAllowance
    if env.dstAllowance < swapAmount ∧ ¬ env.dstApproveOk then
      (some "dst approval retry failed", ev2 ++ [approveDst])
    else
    let ev3 := ev2 ++
      (if env.dstAllowance < swapAmount then
        [approveDst, Event.approve .dst env.dstFactoryAddress swapAmount]
       else [approveDst])
    let ev4 := ev3 ++
      [Event.readBalance .dst env.dstUserAddress env.dstUserBalance]
    if env.dstUserBalance < swapAmount then
      (some "insufficient destination balance", ev4)
    else
    if ¬ env.dstCreateOk then (some "destination escrow creation failed", ev4)
    else
    let ev5 := ev4 ++ [Event.createDstEscrow dstImmutables (env.now + 3600)]
    -- funds verification (lines 846-863); `return` on shortfall
    let ev6 := ev5 ++
      [Event.readBalance .src env.srcEscrowAddr env.srcEscrowBalBefore,
        Event.readBalance .dst env.dstEscrowAddr env.dstEscrowBalBefore]
    if ¬ (swapAmount ≤ env.srcEscrowBalBefore ∧
          swapAmount ≤ env.dstEscrowBalBefore) then
      (some "Funds not properly locked", ev6)
    else
    -- withdrawal phase, source first (lines 888-976), then destination
    -- (lines 979-1073); withdrawal failures are caught and logged only
    let ev7 := ev6 ++
      (if env.srcWithdrawOk then
        [Event.withdraw .src env.srcEscrowAddr selectedSecret srcImmutables
          none]
       else [])
    let dstImmStamped := { dstImmutables with
                           timelocks :=
                             stampDeployedAt dstImmutables.timelocks
                               env.dstDeployedAt }
    let ev8 := ev7 ++
      (if env.dstWithdrawOk then
        [Event.withdraw .dst env.dstEscrowAddr selectedSecret dstImmStamped
          none]
       else [])
    (none, ev8 ++
      [Event.readBalance .src env.srcUserAddress env.finalSrcBalance,
        Event.readBalance .dst env.dstUserAddress env.finalDstBalance])

/-! ## Concrete fixtures

Closed sample inputs used by the witness and counterexample theorems. -/

/-- A raw timelocks word with offsets `10, 120, 121, 122` (source side) and
`10, 100, 101` (destination side), deployedAt field zero — the offsets the
scripts configure via `Sdk.TimeLocks.new`. -/
def sampleRawTimelocks : Nat :=
  10 * 2 ^ 32 + 120 * 2 ^ 64 + 121 * 2 ^ 96 + 122 * 2 ^ 128 +
    10 * 2 ^ 160 + 100 * 2 ^ 192 + 101 * 2 ^ 224

def sampleRawImmutables : RawImmutables :=
  { orderHash := 11, hashlock := 22, maker := 3, taker := 4, token := 5,
    amount := 500000, timelocks := sampleRawTimelocks }

def sampleImmutables : Immutables :=
  mkSrcImmutables sampleRawImmutables 1000000000000000 1700000000

/-- The same immutables with a different deployedAt stamped in (and no other
change). -/
def sampleImmutablesLater : Immutables :=
  mkSrcImmutables sampleRawImmutables 1000000000000000 1700000600

def sampleEntry : SwapEntry :=
  createOrderEntry 11 99 22 500000 4 sampleRawImmutables 31 32 6
    1000000000000000 1700000000 1700000000

/-- An all-success environment for the final relayer. -/
def relayerHappyEnv : RelayerEnv :=
  { now := 1700000100, srcRelayerAddress := 41, dstRelayerAddress := 42,
    dstAllowance := 0, dstRelayerBalance := 600000, dstApproveOk := true,
    dstRelayerBalance2 := 600000, dstCreateOk := true, dstEscrowAddr := 51,
    srcAllowanceAt := fun _ => some 600000, transferFromOk := true,
    srcRelayerAllowance := 0, srcApproveOk := true, srcCreateOk := true,
    srcEscrowAddr := 52, srcEscrowBal := 500000, dstEscrowBal := 500000,
    srcEscrowBalBefore := 500000, srcWithdrawOk := true, srcEscrowBalAfter := 0,
    dstEscrowBalBefore := 500000, dstWithdrawOk := true, dstEscrowBalAfter := 0,
    transferOk := true }

/-- Same environment but the source escrow balance read comes back short. -/
def relayerShortfallEnv : RelayerEnv :=
  { relayerHappyEnv with srcEscrowBal := 0 }

/-- Same environment but the maker never grants the allowance. -/
def relayerTimeoutEnv : RelayerEnv :=
  { relayerHappyEnv with srcAllowanceAt := fun _ => some 0 }

/-- An all-success environment for the first (legacy) relayer variant. -/
def legacyHappyEnv : LegacyEnv :=
  { now := 1700000100, srcRelayerAddress := 41, dstRelayerAddress := 42,
    dstRelayerBalance := 600000, dstApproveOk := true, dstCreateOk := true,
    dstEscrowAddr := 51, srcAllowanceAt := fun _ => some 600000,
    srcCreateOk := true, srcEscrowAddr := 52, srcWithdrawOk := true,
    dstWithdrawOk := true, transferOk := true }

/-- An all-success environment for the multi-fill scripts. -/
def multiFillHappyEnv : MultiFillEnv :=
  { now := 1700000100, srcUserAddress := 4, dstUserAddress := 4,
    srcFactoryAddress := 31, dstFactoryAddress := 32,
    initialSrcBalance := 700000, initialDstBalance := 700000,
    srcAllowance := 0, srcApproveOk := true, srcCreateOk := true,
    srcEscrowAddr := 52, dstAllowance := 0, dstApproveOk := true,
    dstUserBalance := 600000, dstCreateOk := true, dstCreateRetryOk := true,
    dstEscrowAddr := 51, dstDeployedAt := 1700000123,
    dstEscrowBalBefore := 500000, dstWithdrawOk := true, dstEscrowBalAfter := 0,
    srcEscrowBalBefore := 500000, srcWithdrawOk := true, srcEscrowBalAfter := 0,
    finalSrcBalance := 200000, finalDstBalance := 1200000,
    finalSrcEscrowBalance := 0, finalDstEscrowBalance := 0 }

/-- Accumulator of `fundsCheck` along a trace: whether a sufficient read of the
source escrow balance has been seen. -/
def fcSeenSrc (amount srcA : Nat) : Bool → List Event → Bool
  | s, [] => s
  | s, .readBalance .src a v :: rest =>
    fcSeenSrc amount srcA (s || (a == srcA && decide (amount ≤ v))) rest
  | s, _ :: rest => fcSeenSrc amount srcA s rest

/-- Accumulator of `fundsCheck` along a trace: whether a sufficient read of the
destination escrow balance has been seen. -/
def fcSeenDst (amount dstA : Nat) : Bool → List Event → Bool
  | d, [] => d
  | d, .readBalance .dst a v :: rest =>
    fcSeenDst amount dstA (d || (a == dstA && decide (amount ≤ v))) rest
  | d, _ :: rest => fcSeenDst amount dstA d rest

def emptyRegistry : Registry := fun _ => none

/-- A failed registry entry carrying a terminal error message. -/
def failedEntryA : SwapEntry :=
  { sampleEntry with
    status := "failed"
    error := some "Failed to withdraw from source escrow"
    srcEscrowAddress := some 52
    dstEscrowAddress := some 51 }

/-- The same failed entry with a different terminal error message. -/
def failedEntryB : SwapEntry :=
  { failedEntryA with error := some "User approval timeout - user must approve USDC spending" }

/-! ## Helper lemmas on the checkers and the interpreter phases -/

theorem hasWithdraw_append (l1 l2 : List Event) :
    hasWithdraw (l1 ++ l2) = (hasWithdraw l1 || hasWithdraw l2) := by
  simp [hasWithdraw]

theorem hasSrcWithdraw_append (l1 l2 : List Event) :
    hasSrcWithdraw (l1 ++ l2) = (hasSrcWithdraw l1 || hasSrcWithdraw l2) := by
  simp [hasSrcWithdraw]

theorem hasDstWithdraw_append (l1 l2 : List Event) :
    hasDstWithdraw (l1 ++ l2) = (hasDstWithdraw l1 || hasDstWithdraw l2) := by
  simp [hasDstWithdraw]

theorem hasCreateSrcEscrow_append (l1 l2 : List Event) :
    hasCreateSrcEscrow (l1 ++ l2) =
      (hasCreateSrcEscrow l1 || hasCreateSrcEscrow l2) := by
  simp [hasCreateSrcEscrow]

theorem fundsCheck_append (amount srcA dstA : Nat) (l1 l2 : List Event) :
    ∀ s d, fundsCheck amount srcA dstA s d (l1 ++ l2) =
      (fundsCheck amount srcA dstA s d l1 &&
        fundsCheck amount srcA dstA (fcSeenSrc amount srcA s l1)
          (fcSeenDst amount dstA d l1) l2) := by
  induction l1 with
  | nil => intro s d; simp [fundsCheck, fcSeenSrc, fcSeenDst]
  | cons e rest ih =>
    intro s d
    cases e with
    | readAllowance side o sp v => simp [fundsCheck, fcSeenSrc, fcSeenDst, ih]
    | readBalance side a v =>
      cases side <;> simp [fundsCheck, fcSeenSrc, fcSeenDst, ih]
    | approve side sp a => simp [fundsCheck, fcSeenSrc, fcSeenDst, ih]
    | createDstEscrow i t => simp [fundsCheck, fcSeenSrc, fcSeenDst, ih]
    | createSrcEscrow i => simp [fundsCheck, fcSeenSrc, fcSeenDst, ih]
    | transferFrom side x y a => simp [fundsCheck, fcSeenSrc, fcSeenDst, ih]
    | withdraw side esc sec imm pr =>
      simp [fundsCheck, fcSeenSrc, fcSeenDst, ih, Bool.and_assoc]
    | transfer side r a => simp [fundsCheck, fcSeenSrc, fcSeenDst, ih]

theorem fundsCheck_of_no_withdraw (amount srcA dstA : Nat) (l : List Event)
    (h : hasWithdraw l = false) :
    ∀ s d, fundsCheck amount srcA dstA s d l = true := by
  induction l with
  | nil => intro s d; simp [fundsCheck]
  | cons e rest ih =>
    intro s d
    simp [hasWithdraw, isWithdrawEvent] at h
    obtain ⟨h1, h2⟩ := h
    have ih2 := ih (by simpa [hasWithdraw] using h2)
    cases e with
    | readAllowance side o sp v => simp [fundsCheck, ih2]
    | readBalance side a v => cases side <;> simp [fundsCheck, ih2]
    | approve side sp a => simp [fundsCheck, ih2]
    | createDstEscrow i t => simp [fundsCheck, ih2]
    | createSrcEscrow i => simp [fundsCheck, ih2]
    | transferFrom side x y a => simp [fundsCheck, ih2]
    | withdraw side esc sec imm pr => simp [isWithdrawEvent] at h1
    | transfer side r a => simp [fundsCheck, ih2]

theorem fundsCheck_true_true (amount srcA dstA : Nat) (l : List Event) :
    fundsCheck amount srcA dstA true true l = true := by
  induction l with
  | nil => simp [fundsCheck]
  | cons e rest ih =>
    cases e with
    | readAllowance side o sp v => simp [fundsCheck, ih]
    | readBalance side a v => cases side <;> simp [fundsCheck, ih]
    | approve side sp a => simp [fundsCheck, ih]
    | createDstEscrow i t => simp [fundsCheck, ih]
    | createSrcEscrow i => simp [fundsCheck, ih]
    | transferFrom side x y a => simp [fundsCheck, ih]
    | withdraw side esc sec imm pr => simp [fundsCheck, ih]
    | transfer side r a => simp [fundsCheck, ih]

theorem srcRevealFirst_append (l1 l2 : List Event) :
    ∀ b, srcRevealFirst b (l1 ++ l2) =
      (srcRevealFirst b l1 && srcRevealFirst (b || hasSrcWithdraw l1) l2) := by
  induction l1 with
  | nil => intro b; simp [srcRevealFirst, hasSrcWithdraw]
  | cons e rest ih =>
    intro b
    cases e with
    | readAllowance side o sp v => simpa [srcRevealFirst, hasSrcWithdraw,
        isSrcWithdrawEvent] using ih b
    | readBalance side a v => simpa [srcRevealFirst, hasSrcWithdraw,
        isSrcWithdrawEvent] using ih b
    | approve side sp a => simpa [srcRevealFirst, hasSrcWithdraw,
        isSrcWithdrawEvent] using ih b
    | createDstEscrow i t => simpa [srcRevealFirst, hasSrcWithdraw,
        isSrcWithdrawEvent] using ih b
    | createSrcEscrow i => simpa [srcRevealFirst, hasSrcWithdraw,
        isSrcWithdrawEvent] using ih b
    | transferFrom side x y a => simpa [srcRevealFirst, hasSrcWithdraw,
        isSrcWithdrawEvent] using ih b
    | withdraw side esc sec imm pr =>
      cases side
      · simp [srcRevealFirst, hasSrcWithdraw, isSrcWithdrawEvent, ih]
      · simp [srcRevealFirst, hasSrcWithdraw, isSrcWithdrawEvent, ih,
          Bool.and_assoc]
    | transfer side r a => simpa [srcRevealFirst, hasSrcWithdraw,
        isSrcWithdrawEvent] using ih b

theorem srcRevealFirst_true (l : List Event) : srcRevealFirst true l = true := by
  induction l with
  | nil => simp [srcRevealFirst]
  | cons e rest ih =>
    cases e with
    | readAllowance side o sp v => simpa [srcRevealFirst] using ih
    | readBalance side a v => simpa [srcRevealFirst] using ih
    | approve side sp a => simpa [srcRevealFirst] using ih
    | createDstEscrow i t => simpa [srcRevealFirst] using ih
    | createSrcEscrow i => simpa [srcRevealFirst] using ih
    | transferFrom side x y a => simpa [srcRevealFirst] using ih
    | withdraw side esc sec imm pr => cases side <;> simp [srcRevealFirst, ih]
    | transfer side r a => simpa [srcRevealFirst] using ih

theorem srcRevealFirst_of_no_dstWithdraw (l : List Event)
    (h : hasDstWithdraw l = false) : ∀ b, srcRevealFirst b l = true := by
  induction l with
  | nil => intro b; simp [srcRevealFirst]
  | cons e rest ih =>
    intro b
    simp [hasDstWithdraw, isDstWithdrawEvent] at h
    obtain ⟨h1, h2⟩ := h
    have ih2 := ih (by simpa [hasDstWithdraw] using h2)
    cases e with
    | readAllowance side o sp v => simp [srcRevealFirst, ih2]
    | readBalance side a v => simp [srcRevealFirst, ih2]
    | approve side sp a => simp [srcRevealFirst, ih2]
    | createDstEscrow i t => simp [srcRevealFirst, ih2]
    | createSrcEscrow i => simp [srcRevealFirst, ih2]
    | transferFrom side x y a => simp [srcRevealFirst, ih2]
    | withdraw side esc sec imm pr =>
      cases side
      · simp [srcRevealFirst, ih2]
      · simp [isDstWithdrawEvent] at h1
    | transfer side r a => simp [srcRevealFirst, ih2]

theorem pollLoop_any_false (p : Event → Bool)
    (hp : ∀ side o sp v, p (Event.readAllowance side o sp v) = false)
    (f : Nat → Option Nat) (u sp a : Nat) :
    ∀ n i, ((pollLoop f u sp a i n).1.any p) = false := by
  intro n
  induction n with
  | zero => intro i; simp [pollLoop]
  | succ n ih =>
    intro i
    simp only [pollLoop]
    cases hf : f i with
    | none => exact ih (i + 1)
    | some v =>
      by_cases hv : a ≤ v
      · simp [hv, hp]
      · simp [hv, hp, ih (i + 1)]

theorem pollLoop_not_approved (f : Nat → Option Nat) (u sp a : Nat)
    (hf : ∀ i v, f i = some v → v < a) :
    ∀ n i, (pollLoop f u sp a i n).2 = false := by
  intro n
  induction n with
  | zero => intro i; simp [pollLoop]
  | succ n ih =>
    intro i
    simp only [pollLoop]
    cases hfi : f i with
    | none => exact ih (i + 1)
    | some v =>
      have hv : ¬ a ≤ v := by have := hf i v hfi; omega
      simp [hv, ih (i + 1)]

theorem fcSeenSrc_true (amount srcA : Nat) (l : List Event) :
    fcSeenSrc amount srcA true l = true := by
  induction l with
  | nil => rfl
  | cons e rest ih =>
    cases e with
    | readBalance side a v => cases side <;> simp [fcSeenSrc, ih]
    | readAllowance side o sp v => simpa [fcSeenSrc] using ih
    | approve side sp a => simpa [fcSeenSrc] using ih
    | createDstEscrow i t => simpa [fcSeenSrc] using ih
    | createSrcEscrow i => simpa [fcSeenSrc] using ih
    | transferFrom side x y a => simpa [fcSeenSrc] using ih
    | withdraw side esc sec imm pr => simpa [fcSeenSrc] using ih
    | transfer side r a => simpa [fcSeenSrc] using ih

theorem fcSeenDst_true (amount dstA : Nat) (l : List Event) :
    fcSeenDst amount dstA true l = true := by
  induction l with
  | nil => rfl
  | cons e rest ih =>
    cases e with
    | readBalance side a v => cases side <;> simp [fcSeenDst, ih]
    | readAllowance side o sp v => simpa [fcSeenDst] using ih
    | approve side sp a => simpa [fcSeenDst] using ih
    | createDstEscrow i t => simpa [fcSeenDst] using ih
    | createSrcEscrow i => simpa [fcSeenDst] using ih
    | transferFrom side x y a => simpa [fcSeenDst] using ih
    | withdraw side esc sec imm pr => simpa [fcSeenDst] using ih
    | transfer side r a => simpa [fcSeenDst] using ih

/-! Classification of the events each relayer phase can emit. -/

theorem phaseApproveDst_classified (env : RelayerEnv) (s : SwapEntry) :
    hasWithdraw (phaseApproveDst env s).1 = false ∧
    hasDstWithdraw (phaseApproveDst env s).1 = false ∧
    hasCreateSrcEscrow (phaseApproveDst env s).1 = false := by
  unfold phaseApproveDst
  split <;> (try split) <;>
    simp [hasWithdraw, hasDstWithdraw, hasCreateSrcEscrow, isWithdrawEvent,
      isDstWithdrawEvent, isCreateSrcEscrowEvent]

theorem phaseCreateDstEscrow_classified (env : RelayerEnv) (s : SwapEntry) :
    hasWithdraw (phaseCreateDstEscrow env s).1 = false ∧
    hasDstWithdraw (phaseCreateDstEscrow env s).1 = false ∧
    hasCreateSrcEscrow (phaseCreateDstEscrow env s).1 = false := by
  unfold phaseCreateDstEscrow
  split <;>
    simp [hasWithdraw, hasDstWithdraw, hasCreateSrcEscrow, isWithdrawEvent,
      isDstWithdrawEvent, isCreateSrcEscrowEvent]

theorem phaseWaitSrcApproval_classified (env : RelayerEnv) (s : SwapEntry) :
    hasWithdraw (phaseWaitSrcApproval env s).1 = false ∧
    hasDstWithdraw (phaseWaitSrcApproval env s).1 = false ∧
    hasCreateSrcEscrow (phaseWaitSrcApproval env s).1 = false := by
  have hW := pollLoop_any_false isWithdrawEvent (fun _ _ _ _ => rfl)
    env.srcAllowanceAt s.userAddress env.srcRelayerAddress s.amount
    maxApprovalAttempts 0
  have hD := pollLoop_any_false isDstWithdrawEvent (fun _ _ _ _ => rfl)
    env.srcAllowanceAt s.userAddress env.srcRelayerAddress s.amount
    maxApprovalAttempts 0
  have hC := pollLoop_any_false isCreateSrcEscrowEvent (fun _ _ _ _ => rfl)
    env.srcAllowanceAt s.userAddress env.srcRelayerAddress s.amount
    maxApprovalAttempts 0
  simp only [phaseWaitSrcApproval]
  split <;> exact ⟨hW, hD, hC⟩

theorem phaseTransferFromUser_classified (env : RelayerEnv) (s : SwapEntry) :
    hasWithdraw (phaseTransferFromUser env s).1 = false ∧
    hasDstWithdraw (phaseTransferFromUser env s).1 = false ∧
    hasCreateSrcEscrow (phaseTransferFromUser env s).1 = false := by
  unfold phaseTransferFromUser
  split <;>
    simp [hasWithdraw, hasDstWithdraw, hasCreateSrcEscrow, isWithdrawEvent,
      isDstWithdrawEvent, isCreateSrcEscrowEvent]

theorem phaseApproveSrc_classified (env : RelayerEnv) (s : SwapEntry) :
    hasWithdraw (phaseApproveSrc env s).1 = false ∧
    hasDstWithdraw (phaseApproveSrc env s).1 = false ∧
    hasCreateSrcEscrow (phaseApproveSrc env s).1 = false := by
  unfold phaseApproveSrc
  split <;> (try split) <;>
    simp [hasWithdraw, hasDstWithdraw, hasCreateSrcEscrow, isWithdrawEvent,
      isDstWithdrawEvent, isCreateSrcEscrowEvent]

theorem phaseCreateSrcEscrow_classified (env : RelayerEnv) (s : SwapEntry) :
    hasWithdraw (phaseCreateSrcEscrow env s).1 = false ∧
    hasDstWithdraw (phaseCreateSrcEscrow env s).1 = false := by
  unfold phaseCreateSrcEscrow
  split <;>
    simp [hasWithdraw, hasDstWithdraw, isWithdrawEvent, isDstWithdrawEvent]

theorem phaseVerifyFunds_events (env : RelayerEnv) (s : SwapEntry) :
    (phaseVerifyFunds env s).1 =
      [Event.readBalance .src env.srcEscrowAddr env.srcEscrowBal,
        Event.readBalance .dst env.dstEscrowAddr env.dstEscrowBal] := by
  unfold phaseVerifyFunds
  split <;> rfl

theorem phaseVerifyFunds_classified (env : RelayerEnv) (s : SwapEntry) :
    hasWithdraw (phaseVerifyFunds env s).1 = false ∧
    hasDstWithdraw (phaseVerifyFunds env s).1 = false := by
  rw [phaseVerifyFunds_events]
  simp [hasWithdraw, hasDstWithdraw, isWithdrawEvent, isDstWithdrawEvent]

theorem phaseVerifyFunds_none_iff (env : RelayerEnv) (s : SwapEntry) :
    (phaseVerifyFunds env s).2 = none ↔
      s.amount ≤ env.srcEscrowBal ∧ s.amount ≤ env.dstEscrowBal := by
  unfold phaseVerifyFunds
  split <;> simp_all

theorem phaseVerifyFunds_shortfall (env : RelayerEnv) (s : SwapEntry)
    (h : env.srcEscrowBal < s.amount ∨ env.dstEscrowBal < s.amount) :
    (phaseVerifyFunds env s).2 =
      some "Funds not properly locked in escrow contracts" := by
  unfold phaseVerifyFunds
  split
  · next hc => exact absurd hc (by omega)
  · rfl

theorem phaseWithdrawSrc_classified (env : RelayerEnv) (s : SwapEntry) :
    hasDstWithdraw (phaseWithdrawSrc env s).1 = false := by
  unfold phaseWithdrawSrc
  split <;> simp [hasDstWithdraw, isDstWithdrawEvent]

theorem phaseWithdrawSrc_ok (env : RelayerEnv) (s : SwapEntry)
    (h : (phaseWithdrawSrc env s).2 = none) :
    (phaseWithdrawSrc env s).1 =
      [Event.readBalance .src env.srcEscrowAddr env.srcEscrowBalBefore,
        Event.withdraw .src env.srcEscrowAddr s.secret s.srcImmutables none,
        Event.readBalance .src env.srcEscrowAddr env.srcEscrowBalAfter] := by
  unfold phaseWithdrawSrc at h ⊢
  split at h <;> simp_all

theorem phaseWithdrawDst_ok (env : RelayerEnv) (s : SwapEntry)
    (h : (phaseWithdrawDst env s).2 = none) :
    (phaseWithdrawDst env s).1 =
      [Event.readBalance .dst env.dstEscrowAddr env.dstEscrowBalBefore,
        Event.withdraw .dst env.dstEscrowAddr s.secret s.dstImmutables none,
        Event.readBalance .dst env.dstEscrowAddr env.dstEscrowBalAfter] := by
  unfold phaseWithdrawDst at h ⊢
  split at h <;> simp_all

theorem phaseTransferToUser_classified (env : RelayerEnv) (s : SwapEntry) :
    hasWithdraw (phaseTransferToUser env s).1 = false ∧
    hasDstWithdraw (phaseTransferToUser env s).1 = false := by
  unfold phaseTransferToUser
  split <;>
    simp [hasWithdraw, hasDstWithdraw, isWithdrawEvent, isDstWithdrawEvent]

/-! Per-phase `fundsCheck` facts (each of these phases emits no withdraw). -/

theorem fundsCheck_phaseApproveDst (a A B : Nat) (env : RelayerEnv)
    (s : SwapEntry) (b1 b2 : Bool) :
    fundsCheck a A B b1 b2 (phaseApproveDst env s).1 = true :=
  fundsCheck_of_no_withdraw a A B _ (phaseApproveDst_classified env s).1 b1 b2

theorem fundsCheck_phaseCreateDstEscrow (a A B : Nat) (env : RelayerEnv)
    (s : SwapEntry) (b1 b2 : Bool) :
    fundsCheck a A B b1 b2 (phaseCreateDstEscrow env s).1 = true :=
  fundsCheck_of_no_withdraw a A B _ (phaseCreateDstEscrow_classified env s).1
    b1 b2

theorem fundsCheck_phaseWaitSrcApproval (a A B : Nat) (env : RelayerEnv)
    (s : SwapEntry) (b1 b2 : Bool) :
    fundsCheck a A B b1 b2 (phaseWaitSrcApproval env s).1 = true :=
  fundsCheck_of_no_withdraw a A B _ (phaseWaitSrcApproval_classified env s).1
    b1 b2

theorem fundsCheck_phaseTransferFromUser (a A B : Nat) (env : RelayerEnv)
    (s : SwapEntry) (b1 b2 : Bool) :
    fundsCheck a A B b1 b2 (phaseTransferFromUser env s).1 = true :=
  fundsCheck_of_no_withdraw a A B _ (phaseTransferFromUser_classified env s).1
    b1 b2

theorem fundsCheck_phaseApproveSrc (a A B : Nat) (env : RelayerEnv)
    (s : SwapEntry) (b1 b2 : Bool) :
    fundsCheck a A B b1 b2 (phaseApproveSrc env s).1 = true :=
  fundsCheck_of_no_withdraw a A B _ (phaseApproveSrc_classified env s).1 b1 b2

theorem fundsCheck_phaseCreateSrcEscrow (a A B : Nat) (env : RelayerEnv)
    (s : SwapEntry) (b1 b2 : Bool) :
    fundsCheck a A B b1 b2 (phaseCreateSrcEscrow env s).1 = true :=
  fundsCheck_of_no_withdraw a A B _ (phaseCreateSrcEscrow_classified env s).1
    b1 b2

theorem fundsCheck_phaseVerifyFunds (a A B : Nat) (env : RelayerEnv)
    (s : SwapEntry) (b1 b2 : Bool) :
    fundsCheck a A B b1 b2 (phaseVerifyFunds env s).1 = true :=
  fundsCheck_of_no_withdraw a A B _ (phaseVerifyFunds_classified env s).1 b1 b2

/-! Outcome lemmas for the individual phases. -/

theorem phaseApproveDst_none (env : RelayerEnv) (s : SwapEntry)
    (h : env.dstApproveOk = true) : (phaseApproveDst env s).2 = none := by
  unfold phaseApproveDst
  split <;> simp [h]

theorem phaseCreateDstEscrow_none (env : RelayerEnv) (s : SwapEntry)
    (h : env.dstCreateOk = true) : (phaseCreateDstEscrow env s).2 = none := by
  unfold phaseCreateDstEscrow
  simp [h]

theorem phaseWaitSrcApproval_none (env : RelayerEnv) (s : SwapEntry)
    (h : (pollLoop env.srcAllowanceAt s.userAddress env.srcRelayerAddress
      s.amount 0 maxApprovalAttempts).2 = true) :
    (phaseWaitSrcApproval env s).2 = none := by
  simp only [phaseWaitSrcApproval]
  simp [h]

theorem phaseWaitSrcApproval_timeout (env : RelayerEnv) (s : SwapEntry)
    (h : ∀ i v, env.srcAllowanceAt i = some v → v < s.amount) :
    (phaseWaitSrcApproval env s).2 =
      some "User approval timeout - user must approve USDC spending" := by
  have hp := pollLoop_not_approved env.srcAllowanceAt s.userAddress
    env.srcRelayerAddress s.amount h maxApprovalAttempts 0
  simp only [phaseWaitSrcApproval]
  simp [hp]

theorem phaseTransferFromUser_none (env : RelayerEnv) (s : SwapEntry)
    (h : env.transferFromOk = true) :
    (phaseTransferFromUser env s).2 = none := by
  unfold phaseTransferFromUser
  simp [h]

theorem phaseApproveSrc_none (env : RelayerEnv) (s : SwapEntry)
    (h : env.srcApproveOk = true) : (phaseApproveSrc env s).2 = none := by
  unfold phaseApproveSrc
  split <;> simp [h]

theorem phaseCreateSrcEscrow_none (env : RelayerEnv) (s : SwapEntry)
    (h : env.srcCreateOk = true) : (phaseCreateSrcEscrow env s).2 = none := by
  unfold phaseCreateSrcEscrow
  simp [h]

/-! Main facts about `executeSwapAsync`. -/

/-- In every execution of the final relayer, each withdraw call is preceded by
reads of both escrow token balances observed at least the fill amount. -/
theorem executeSwapAsync_fundsCheck (env : RelayerEnv) (s : SwapEntry) :
    fundsCheck s.amount env.srcEscrowAddr env.dstEscrowAddr false false
      (executeSwapAsync env s).2 = true := by
  simp only [executeSwapAsync]
  split
  · simp [fundsCheck_phaseApproveDst]
  split
  · simp [fundsCheck_append, fundsCheck_phaseApproveDst,
      fundsCheck_phaseCreateDstEscrow]
  split
  · simp [fundsCheck_append, fundsCheck_phaseApproveDst,
      fundsCheck_phaseCreateDstEscrow, fundsCheck_phaseWaitSrcApproval]
  split
  · simp [fundsCheck_append, fundsCheck_phaseApproveDst,
      fundsCheck_phaseCreateDstEscrow, fundsCheck_phaseWaitSrcApproval,
      fundsCheck_phaseTransferFromUser]
  split
  · simp [fundsCheck_append, fundsCheck_phaseApproveDst,
      fundsCheck_phaseCreateDstEscrow, fundsCheck_phaseWaitSrcApproval,
      fundsCheck_phaseTransferFromUser, fundsCheck_phaseApproveSrc]
  split
  · simp [fundsCheck_append, fundsCheck_phaseApproveDst,
      fundsCheck_phaseCreateDstEscrow, fundsCheck_phaseWaitSrcApproval,
      fundsCheck_phaseTransferFromUser, fundsCheck_phaseApproveSrc,
      fundsCheck_phaseCreateSrcEscrow]
  split
  · simp [fundsCheck_append, fundsCheck_phaseApproveDst,
      fundsCheck_phaseCreateDstEscrow, fundsCheck_phaseWaitSrcApproval,
      fundsCheck_phaseTransferFromUser, fundsCheck_phaseApproveSrc,
      fundsCheck_phaseCreateSrcEscrow, fundsCheck_phaseVerifyFunds]
  next heq7 =>
  have h7 := (phaseVerifyFunds_none_iff env s).mp heq7
  have h71 : s.amount ≤ env.srcEscrowBal := h7.1
  have h72 : s.amount ≤ env.dstEscrowBal := h7.2
  split
  · simp [fundsCheck_append, fundsCheck_phaseApproveDst,
      fundsCheck_phaseCreateDstEscrow, fundsCheck_phaseWaitSrcApproval,
      fundsCheck_phaseTransferFromUser, fundsCheck_phaseApproveSrc,
      fundsCheck_phaseCreateSrcEscrow, phaseVerifyFunds_events, fundsCheck,
      fcSeenSrc, fcSeenDst, h71, h72, fcSeenSrc_true, fcSeenDst_true,
      fundsCheck_true_true]
  split
  · simp [fundsCheck_append, fundsCheck_phaseApproveDst,
      fundsCheck_phaseCreateDstEscrow, fundsCheck_phaseWaitSrcApproval,
      fundsCheck_phaseTransferFromUser, fundsCheck_phaseApproveSrc,
      fundsCheck_phaseCreateSrcEscrow, phaseVerifyFunds_events, fundsCheck,
      fcSeenSrc, fcSeenDst, h71, h72, fcSeenSrc_true, fcSeenDst_true,
      fundsCheck_true_true]
  split
  · simp [fundsCheck_append, fundsCheck_phaseApproveDst,
      fundsCheck_phaseCreateDstEscrow, fundsCheck_phaseWaitSrcApproval,
      fundsCheck_phaseTransferFromUser, fundsCheck_phaseApproveSrc,
      fundsCheck_phaseCreateSrcEscrow, phaseVerifyFunds_events, fundsCheck,
      fcSeenSrc, fcSeenDst, h71, h72, fcSeenSrc_true, fcSeenDst_true,
      fundsCheck_true_true]
  · simp [fundsCheck_append, fundsCheck_phaseApproveDst,
      fundsCheck_phaseCreateDstEscrow, fundsCheck_phaseWaitSrcApproval,
      fundsCheck_phaseTransferFromUser, fundsCheck_phaseApproveSrc,
      fundsCheck_phaseCreateSrcEscrow, phaseVerifyFunds_events, fundsCheck,
      fcSeenSrc, fcSeenDst, h71, h72, fcSeenSrc_true, fcSeenDst_true,
      fundsCheck_true_true]

/-- A shortfall observed by the funds verification makes the swap fail with
the funds-not-locked error before any withdraw call. -/
theorem executeSwapAsync_shortfall (env : RelayerEnv) (s : SwapEntry)
    (h1 : env.dstApproveOk = true) (h2 : env.dstCreateOk = true)
    (h3 : (pollLoop env.srcAllowanceAt s.userAddress env.srcRelayerAddress
      s.amount 0 maxApprovalAttempts).2 = true)
    (h4 : env.transferFromOk = true) (h5 : env.srcApproveOk = true)
    (h6 : env.srcCreateOk = true)
    (hsf : env.srcEscrowBal < s.amount ∨ env.dstEscrowBal < s.amount) :
    (executeSwapAsync env s).1.status = "failed" ∧
    (executeSwapAsync env s).1.error =
      some "Funds not properly locked in escrow contracts" ∧
    hasWithdraw (executeSwapAsync env s).2 = false := by
  have hv := phaseVerifyFunds_shortfall env s hsf
  simp only [executeSwapAsync, phaseApproveDst_none env s h1,
    phaseCreateDstEscrow_none env s h2, phaseWaitSrcApproval_none env s h3,
    phaseTransferFromUser_none env s h4, phaseApproveSrc_none env s h5,
    phaseCreateSrcEscrow_none env s h6, hv]
  refine ⟨rfl, rfl, ?_⟩
  simp [hasWithdraw_append, phaseApproveDst_classified,
    phaseCreateDstEscrow_classified, phaseWaitSrcApproval_classified,
    phaseTransferFromUser_classified, phaseApproveSrc_classified,
    phaseCreateSrcEscrow_classified, phaseVerifyFunds_classified]

/-- When the maker never grants the allowance, the swap fails with the
authorization-timeout error, never creates a source escrow and never submits
the secret. -/
theorem executeSwapAsync_authTimeout (env : RelayerEnv) (s : SwapEntry)
    (h1 : env.dstApproveOk = true) (h2 : env.dstCreateOk = true)
    (hf : ∀ i v, env.srcAllowanceAt i = some v → v < s.amount) :
    (executeSwapAsync env s).1.status = "failed" ∧
    (executeSwapAsync env s).1.error =
      some "User approval timeout - user must approve USDC spending" ∧
    hasCreateSrcEscrow (executeSwapAsync env s).2 = false ∧
    hasWithdraw (executeSwapAsync env s).2 = false := by
  have ht := phaseWaitSrcApproval_timeout env s hf
  simp only [executeSwapAsync, phaseApproveDst_none env s h1,
    phaseCreateDstEscrow_none env s h2, ht]
  refine ⟨rfl, rfl, ?_, ?_⟩
  · simp [hasCreateSrcEscrow_append, phaseApproveDst_classified,
      phaseCreateDstEscrow_classified, phaseWaitSrcApproval_classified]
  · simp [hasWithdraw_append, phaseApproveDst_classified,
      phaseCreateDstEscrow_classified, phaseWaitSrcApproval_classified]

theorem srcFirst_phaseApproveDst (env : RelayerEnv) (s : SwapEntry)
    (b : Bool) : srcRevealFirst b (phaseApproveDst env s).1 = true :=
  srcRevealFirst_of_no_dstWithdraw _ (phaseApproveDst_classified env s).2.1 b

theorem srcFirst_phaseCreateDstEscrow (env : RelayerEnv) (s : SwapEntry)
    (b : Bool) : srcRevealFirst b (phaseCreateDstEscrow env s).1 = true :=
  srcRevealFirst_of_no_dstWithdraw _
    (phaseCreateDstEscrow_classified env s).2.1 b

theorem srcFirst_phaseWaitSrcApproval (env : RelayerEnv) (s : SwapEntry)
    (b : Bool) : srcRevealFirst b (phaseWaitSrcApproval env s).1 = true :=
  srcRevealFirst_of_no_dstWithdraw _
    (phaseWaitSrcApproval_classified env s).2.1 b

theorem srcFirst_phaseTransferFromUser (env : RelayerEnv) (s : SwapEntry)
    (b : Bool) : srcRevealFirst b (phaseTransferFromUser env s).1 = true :=
  srcRevealFirst_of_no_dstWithdraw _
    (phaseTransferFromUser_classified env s).2.1 b

theorem srcFirst_phaseApproveSrc (env : RelayerEnv) (s : SwapEntry)
    (b : Bool) : srcRevealFirst b (phaseApproveSrc env s).1 = true :=
  srcRevealFirst_of_no_dstWithdraw _ (phaseApproveSrc_classified env s).2.1 b

theorem srcFirst_phaseCreateSrcEscrow (env : RelayerEnv) (s : SwapEntry)
    (b : Bool) : srcRevealFirst b (phaseCreateSrcEscrow env s).1 = true :=
  srcRevealFirst_of_no_dstWithdraw _
    (phaseCreateSrcEscrow_classified env s).2 b

theorem srcFirst_phaseVerifyFunds (env : RelayerEnv) (s : SwapEntry)
    (b : Bool) : srcRevealFirst b (phaseVerifyFunds env s).1 = true :=
  srcRevealFirst_of_no_dstWithdraw _ (phaseVerifyFunds_classified env s).2 b

theorem srcFirst_phaseWithdrawSrc (env : RelayerEnv) (s : SwapEntry)
    (b : Bool) : srcRevealFirst b (phaseWithdrawSrc env s).1 = true :=
  srcRevealFirst_of_no_dstWithdraw _ (phaseWithdrawSrc_classified env s) b

/-- In every execution of the final relayer, the secret reaches the
destination escrow only after it was submitted to the source escrow. -/
theorem executeSwapAsync_srcRevealFirst (env : RelayerEnv) (s : SwapEntry) :
    srcRevealFirst false (executeSwapAsync env s).2 = true := by
  simp only [executeSwapAsync]
  split
  · simp [srcFirst_phaseApproveDst]
  split
  · simp [srcRevealFirst_append, srcFirst_phaseApproveDst,
      srcFirst_phaseCreateDstEscrow]
  split
  · simp [srcRevealFirst_append, srcFirst_phaseApproveDst,
      srcFirst_phaseCreateDstEscrow, srcFirst_phaseWaitSrcApproval]
  split
  · simp [srcRevealFirst_append, srcFirst_phaseApproveDst,
      srcFirst_phaseCreateDstEscrow, srcFirst_phaseWaitSrcApproval,
      srcFirst_phaseTransferFromUser]
  split
  · simp [srcRevealFirst_append, srcFirst_phaseApproveDst,
      srcFirst_phaseCreateDstEscrow, srcFirst_phaseWaitSrcApproval,
      srcFirst_phaseTransferFromUser, srcFirst_phaseApproveSrc]
  split
  · simp [srcRevealFirst_append, srcFirst_phaseApproveDst,
      srcFirst_phaseCreateDstEscrow, srcFirst_phaseWaitSrcApproval,
      srcFirst_phaseTransferFromUser, srcFirst_phaseApproveSrc,
      srcFirst_phaseCreateSrcEscrow]
  split
  · simp [srcRevealFirst_append, srcFirst_phaseApproveDst,
      srcFirst_phaseCreateDstEscrow, srcFirst_phaseWaitSrcApproval,
      srcFirst_phaseTransferFromUser, srcFirst_phaseApproveSrc,
      srcFirst_phaseCreateSrcEscrow, srcFirst_phaseVerifyFunds]
  split
  · simp [srcRevealFirst_append, srcFirst_phaseApproveDst,
      srcFirst_phaseCreateDstEscrow, srcFirst_phaseWaitSrcApproval,
      srcFirst_phaseTransferFromUser, srcFirst_phaseApproveSrc,
      srcFirst_phaseCreateSrcEscrow, srcFirst_phaseVerifyFunds,
      srcFirst_phaseWithdrawSrc]
  next heq8 =>
  rw [phaseWithdrawSrc_ok env s heq8]
  split
  · simp [srcRevealFirst_append, srcFirst_phaseApproveDst,
      srcFirst_phaseCreateDstEscrow, srcFirst_phaseWaitSrcApproval,
      srcFirst_phaseTransferFromUser, srcFirst_phaseApproveSrc,
      srcFirst_phaseCreateSrcEscrow, srcFirst_phaseVerifyFunds,
      srcRevealFirst, hasSrcWithdraw, isSrcWithdrawEvent, srcRevealFirst_true]
  split
  · simp [srcRevealFirst_append, srcFirst_phaseApproveDst,
      srcFirst_phaseCreateDstEscrow, srcFirst_phaseWaitSrcApproval,
      srcFirst_phaseTransferFromUser, srcFirst_phaseApproveSrc,
      srcFirst_phaseCreateSrcEscrow, srcFirst_phaseVerifyFunds,
      srcRevealFirst, hasSrcWithdraw, isSrcWithdrawEvent, srcRevealFirst_true]
  · simp [srcRevealFirst_append, srcFirst_phaseApproveDst,
      srcFirst_phaseCreateDstEscrow, srcFirst_phaseWaitSrcApproval,
      srcFirst_phaseTransferFromUser, srcFirst_phaseApproveSrc,
      srcFirst_phaseCreateSrcEscrow, srcFirst_phaseVerifyFunds,
      srcRevealFirst, hasSrcWithdraw, isSrcWithdrawEvent, srcRevealFirst_true]

/-- A completed execution of the final relayer submitted the secret on both
chains. -/
theorem executeSwapAsync_completed_withdraws (env : RelayerEnv) (s : SwapEntry)
    (hc : (executeSwapAsync env s).1.status = "completed") :
    hasSrcWithdraw (executeSwapAsync env s).2 = true ∧
    hasDstWithdraw (executeSwapAsync env s).2 = true := by
  simp only [executeSwapAsync] at hc ⊢
  split at hc
  next m heq => exact absurd hc (by simp [markFailed])
  next heq1 =>
  split at hc
  next m heq => exact absurd hc (by simp [markFailed])
  next heq2 =>
  split at hc
  next m heq => exact absurd hc (by simp [markFailed])
  next heq3 =>
  split at hc
  next m heq => exact absurd hc (by simp [markFailed])
  next heq4 =>
  split at hc
  next m heq => exact absurd hc (by simp [markFailed])
  next heq5 =>
  split at hc
  next m heq => exact absurd hc (by simp [markFailed])
  next heq6 =>
  split at hc
  next m heq => exact absurd hc (by simp [markFailed])
  next heq7 =>
  split at hc
  next m heq => exact absurd hc (by simp [markFailed])
  next heq8 =>
  split at hc
  next m heq => exact absurd hc (by simp [markFailed])
  next heq9 =>
  split at hc
  next m heq => exact absurd hc (by simp [markFailed])
  next heq10 =>
  constructor
  · rw [phaseWithdrawSrc_ok env s heq8]
    simp [hasSrcWithdraw_append, hasSrcWithdraw, isSrcWithdrawEvent]
  · rw [phaseWithdrawDst_ok env s heq9]
    simp [hasDstWithdraw_append, hasDstWithdraw, isDstWithdrawEvent]

/-! Bit-level facts about the deployedAt stamping. -/

theorem TIMELOCKS_MASK_eq : TIMELOCKS_MASK = (2 ^ 216 - 1) <<< 32 := by decide

theorem testBit_TIMELOCKS_MASK (j : Nat) :
    TIMELOCKS_MASK.testBit j = (decide (32 ≤ j) && decide (j < 248)) := by
  rw [TIMELOCKS_MASK_eq]
  simp only [Nat.testBit_shiftLeft, Nat.testBit_two_pow_sub_one]
  by_cases h32 : 32 ≤ j
  · have : (j - 32 < 216) = (j < 248) := by
      apply propext; constructor <;> intro <;> omega
    simp [h32, this]
  · simp [h32]

theorem testBit_stampDeployedAt_mid (t d j : Nat) (hd : d < 2 ^ 32)
    (hj1 : 32 ≤ j) (hj2 : j < 248) :
    (stampDeployedAt t d).testBit j = t.testBit j := by
  have hdj : d.testBit j = false :=
    Nat.testBit_lt_two_pow (Nat.lt_of_lt_of_le hd
      (Nat.pow_le_pow_right (by omega) hj1))
  simp [stampDeployedAt, Nat.testBit_or, Nat.testBit_and,
    testBit_TIMELOCKS_MASK, hj1, hj2, hdj]

theorem testBit_stampDeployedAt_high (t d j : Nat) (hd : d < 2 ^ 32)
    (hj : 248 ≤ j) :
    (stampDeployedAt t d).testBit j = false := by
  have hdj : d.testBit j = false :=
    Nat.testBit_lt_two_pow (Nat.lt_of_lt_of_le hd
      (Nat.pow_le_pow_right (by omega) (by omega)))
  have hmj : TIMELOCKS_MASK.testBit j = false := by
    rw [testBit_TIMELOCKS_MASK]
    simp
    omega
  simp [stampDeployedAt, Nat.testBit_or, Nat.testBit_and, hmj, hdj]

theorem testBit_stampDeployedAt_low (t d j : Nat) (hj : j < 32) :
    (stampDeployedAt t d).testBit j = d.testBit j := by
  have hmj : TIMELOCKS_MASK.testBit j = false := by
    rw [testBit_TIMELOCKS_MASK]
    simp
    omega
  simp [stampDeployedAt, Nat.testBit_or, Nat.testBit_and, hmj]

theorem deployedAtField_stampDeployedAt (t d : Nat) (hd : d < 2 ^ 32) :
    deployedAtField (stampDeployedAt t d) = d := by
  unfold deployedAtField
  apply Nat.eq_of_testBit_eq
  intro i
  rw [Nat.testBit_mod_two_pow]
  by_cases hi : i < 32
  · simp [hi, testBit_stampDeployedAt_low t d i hi]
  · have : d.testBit i = false :=
      Nat.testBit_lt_two_pow (Nat.lt_of_lt_of_le hd
        (Nat.pow_le_pow_right (by omega) (by omega)))
    simp [hi, this]

theorem offsetField_congr_of_testBit (x y k : Nat)
    (h : ∀ j, 32 * k ≤ j → j < 32 * k + 32 → x.testBit j = y.testBit j) :
    offsetField x k = offsetField y k := by
  unfold offsetField
  apply Nat.eq_of_testBit_eq
  intro i
  rw [Nat.testBit_mod_two_pow, Nat.testBit_mod_two_pow,
    Nat.testBit_shiftRight, Nat.testBit_shiftRight]
  by_cases hi : i < 32
  · simp only [hi, decide_True, Bool.true_and]
    exact h (32 * k + i) (by omega) (by omega)
  · simp [hi]

theorem offsetField_stampDeployedAt (t d : Nat) (hd : d < 2 ^ 32)
    (htop : ∀ j, 248 ≤ j → t.testBit j = false) :
    ∀ k, 1 ≤ k → k ≤ 7 →
      offsetField (stampDeployedAt t d) k = offsetField t k := by
  intro k hk1 hk7
  apply offsetField_congr_of_testBit
  intro j hj1 hj2
  by_cases hj : j < 248
  · exact testBit_stampDeployedAt_mid t d j hd (by omega) hj
  · rw [testBit_stampDeployedAt_high t d j hd (by omega),
      htop j (by omega)]

theorem stampDeployedAt_top_clear (t d : Nat) (hd : d < 2 ^ 32) :
    ∀ j, 248 ≤ j → (stampDeployedAt t d).testBit j = false :=
  fun j hj => testBit_stampDeployedAt_high t d j hd hj

/-! ## Claim theorems -/

/-- C1 (amended): in the final relayer variant (`executeSwapAsync`, part_003
lines 1074-1667) the secret is never submitted to either escrow withdraw call
unless, beforehand, both escrow token balances were read and observed at least
the fill amount, and when the funds verification observes a shortfall the swap
fails with the funds-not-locked error before any secret is revealed.  (The
claim as stated over every `executeSwapAsync` is refuted by the earlier
variant in the same file, see the counterexample.) -/
theorem executeSwapAsync_never_reveals_before_funds_verified
    (env : RelayerEnv) (s : SwapEntry) :
    fundsCheck s.amount env.srcEscrowAddr env.dstEscrowAddr false false
      (executeSwapAsync env s).2 = true ∧
    (env.dstApproveOk = true → env.dstCreateOk = true →
      (pollLoop env.srcAllowanceAt s.userAddress env.srcRelayerAddress s.amount
        0 maxApprovalAttempts).2 = true →
      env.transferFromOk = true → env.srcApproveOk = true →
      env.srcCreateOk = true →
      env.srcEscrowBal < s.amount ∨ env.dstEscrowBal < s.amount →
      (executeSwapAsync env s).1.status = "failed" ∧
      (executeSwapAsync env s).1.error =
        some "Funds not properly locked in escrow contracts" ∧
      hasWithdraw (executeSwapAsync env s).2 = false) :=
  ⟨executeSwapAsync_fundsCheck env s,
    fun h1 h2 h3 h4 h5 h6 hsf =>
      executeSwapAsync_shortfall env s h1 h2 h3 h4 h5 h6 hsf⟩

/-- C1 witness: a concrete environment whose source escrow balance read comes
back short makes the swap fail with the funds-not-locked error and no secret
is submitted. -/
theorem executeSwapAsync_never_reveals_before_funds_verified_witness :
    (executeSwapAsync relayerShortfallEnv sampleEntry).1.status = "failed" ∧
    (executeSwapAsync relayerShortfallEnv sampleEntry).1.error =
      some "Funds not properly locked in escrow contracts" ∧
    hasWithdraw (executeSwapAsync relayerShortfallEnv sampleEntry).2 = false :=
  (executeSwapAsync_never_reveals_before_funds_verified relayerShortfallEnv
      sampleEntry).2 rfl rfl (by decide) rfl rfl rfl (Or.inl (by decide))

/-- C1 counterexample: the first relayer variant in the same source file
(`executeSwapAsync`, part_003 lines 448-613, withdraw steps at lines 571-593)
submits the secret in a completed run even though no read of either escrow
token balance ever happened: the claim quantified over every execution of
`executeSwapAsync` is false. -/
theorem executeSwapAsyncLegacy_reveals_without_funds_verification :
    (executeSwapAsyncLegacy legacyHappyEnv sampleEntry).1.status =
      "completed" ∧
    hasWithdraw (executeSwapAsyncLegacy legacyHappyEnv sampleEntry).2 = true ∧
    fundsCheck sampleEntry.amount legacyHappyEnv.srcEscrowAddr
      legacyHappyEnv.dstEscrowAddr false false
      (executeSwapAsyncLegacy legacyHappyEnv sampleEntry).2 = false := by
  decide

/-- C2: when the maker's allowance never reaches the fill amount within the
bounded polling window (60 fixed-interval attempts), the swap ends failed with
the authorization-timeout error, no source escrow is ever created, and the
secret is never submitted to any ledger. -/
theorem executeSwapAsync_authorization_timeout (env : RelayerEnv)
    (s : SwapEntry) (h1 : env.dstApproveOk = true)
    (h2 : env.dstCreateOk = true)
    (hf : ∀ i v, env.srcAllowanceAt i = some v → v < s.amount) :
    (executeSwapAsync env s).1.status = "failed" ∧
    (executeSwapAsync env s).1.error =
      some "User approval timeout - user must approve USDC spending" ∧
    hasCreateSrcEscrow (executeSwapAsync env s).2 = false ∧
    hasWithdraw (executeSwapAsync env s).2 = false :=
  executeSwapAsync_authTimeout env s h1 h2 hf

/-- C2 witness: a concrete environment whose allowance reads always return
zero ends in the authorization-timeout failure with no source escrow and no
withdraw call. -/
theorem executeSwapAsync_authorization_timeout_witness :
    (executeSwapAsync relayerTimeoutEnv sampleEntry).1.status = "failed" ∧
    (executeSwapAsync relayerTimeoutEnv sampleEntry).1.error =
      some "User approval timeout - user must approve USDC spending" ∧
    hasCreateSrcEscrow (executeSwapAsync relayerTimeoutEnv sampleEntry).2 =
      false ∧
    hasWithdraw (executeSwapAsync relayerTimeoutEnv sampleEntry).2 = false :=
  executeSwapAsync_authorization_timeout relayerTimeoutEnv sampleEntry rfl rfl
    (by
      intro i v h
      injection h with h2
      rw [← h2]
      decide)

/-- C3 (amended): in the final relayer (`executeSwapAsync`) the secret is
submitted to the destination escrow only after it was submitted to the source
escrow, and every completed run submitted it on both chains.  (The claim as
stated also covers `performMultipleFillCrossChainSwap` of part_004, whose
withdrawal phase runs destination-first; see the counterexample.) -/
theorem executeSwapAsync_source_reveal_precedes_destination
    (env : RelayerEnv) (s : SwapEntry) :
    srcRevealFirst false (executeSwapAsync env s).2 = true ∧
    ((executeSwapAsync env s).1.status = "completed" →
      hasSrcWithdraw (executeSwapAsync env s).2 = true ∧
      hasDstWithdraw (executeSwapAsync env s).2 = true) :=
  ⟨executeSwapAsync_srcRevealFirst env s,
    fun hc => executeSwapAsync_completed_withdraws env s hc⟩

/-- C3 witness: the all-success environment completes and submits the secret
on both chains. -/
theorem executeSwapAsync_source_reveal_precedes_destination_witness :
    hasSrcWithdraw (executeSwapAsync relayerHappyEnv sampleEntry).2 = true ∧
    hasDstWithdraw (executeSwapAsync relayerHappyEnv sampleEntry).2 = true :=
  (executeSwapAsync_source_reveal_precedes_destination relayerHappyEnv
    sampleEntry).2 (by decide)

/-- C3 counterexample: `performMultipleFillCrossChainSwap` (part_004) runs its
withdrawal phase destination-escrow-first (lines 712-755 before 757-802): in a
completed run the trace contains a destination withdraw that no source
withdraw precedes, so reveal-on-source does not strictly precede
reveal-on-destination in every completed swap execution. -/
theorem performMultipleFillCrossChainSwap_reveals_destination_first :
    (performMultipleFillCrossChainSwap multiFillHappyEnv 500000 99
      sampleImmutables sampleImmutables).1 = true ∧
    hasDstWithdraw (performMultipleFillCrossChainSwap multiFillHappyEnv 500000
      99 sampleImmutables sampleImmutables).2 = true ∧
    srcRevealFirst false (performMultipleFillCrossChainSwap multiFillHappyEnv
      500000 99 sampleImmutables sampleImmutables).2 = false := by
  decide

/-- C4 (amended): for every packed timelocks word below `2 ^ 248` (topmost
offset sub-field below `2 ^ 24`) satisfying the ordering invariant and 32-bit
deployedAt timestamps, the stamping `(timelocks & 0xFF..FF00000000) |
deployedAt` replaces exactly the deployedAt sub-field and preserves all seven
offset sub-fields, and stamping the result again preserves all offsets
unconditionally.  (Without the `2 ^ 248` bound the claim fails: the mask
literal is eight bits short of 256 bits and clears bits 248-255; see the
counterexample.) -/
theorem stampDeployedAt_preserves_offsets (t d d2 : Nat)
    (_hord : TimelockOrderingOk t) (ht : t < 2 ^ 248) (hd : d < 2 ^ 32)
    (hd2 : d2 < 2 ^ 32) :
    (deployedAtField (stampDeployedAt t d) = d ∧
      ∀ k, 1 ≤ k → k ≤ 7 →
        offsetField (stampDeployedAt t d) k = offsetField t k) ∧
    ∀ k, 1 ≤ k → k ≤ 7 →
      offsetField (stampDeployedAt (stampDeployedAt t d) d2) k =
        offsetField (stampDeployedAt t d) k := by
  have htop : ∀ j, 248 ≤ j → t.testBit j = false := fun j hj =>
    Nat.testBit_lt_two_pow (Nat.lt_of_lt_of_le ht
      (Nat.pow_le_pow_right (by omega) hj))
  exact ⟨⟨deployedAtField_stampDeployedAt t d hd,
      offsetField_stampDeployedAt t d hd htop⟩,
    offsetField_stampDeployedAt _ d2 hd2 (stampDeployedAt_top_clear t d hd)⟩

/-- C4 witness: stamping the configured offsets with a concrete timestamp
replaces only the deployedAt sub-field and keeps the topmost offset. -/
theorem stampDeployedAt_preserves_offsets_witness :
    deployedAtField (stampDeployedAt sampleRawTimelocks 1700000000) =
      1700000000 ∧
    offsetField (stampDeployedAt sampleRawTimelocks 1700000000) 7 =
      offsetField sampleRawTimelocks 7 :=
  ⟨(stampDeployedAt_preserves_offsets sampleRawTimelocks 1700000000 1700000600
      (by decide) (by decide) (by decide) (by decide)).1.1,
    (stampDeployedAt_preserves_offsets sampleRawTimelocks 1700000000
      1700000600 (by decide) (by decide) (by decide) (by decide)).1.2 7
      (by decide) (by decide)⟩

/-- C4 counterexample: a packed word whose seven offsets all equal
`0xFFFFFFFF` satisfies the ordering invariant, yet stamping deployedAt `5`
changes the topmost offset sub-field (the 248-bit mask clears its top eight
bits), so the stamping does not preserve every offset sub-field for every
ordered timelocks value. -/
theorem stampDeployedAt_mask_clears_top_offset_bits :
    TimelockOrderingOk (2 ^ 256 - 2 ^ 32) ∧ (5 : Nat) < 2 ^ 32 ∧
    offsetField (stampDeployedAt (2 ^ 256 - 2 ^ 32) 5) 7 ≠
      offsetField (2 ^ 256 - 2 ^ 32) 7 ∧
    deployedAtField (stampDeployedAt (2 ^ 256 - 2 ^ 32) 5) = 5 := by
  decide

/-- C5 (amended): the escrow-address derivation of
`performCrossChainSwap` (cross-chain-swap.js lines 217 and 249) is a pure
function of the order hash and the wallet address alone: any two Immutables
sharing the order hash resolve to the same address (determinism is the special
case of identical Immutables). -/
theorem performCrossChainSwapEscrowAddress_depends_only_on_orderHash
    (digest : Nat × Nat → Nat) (imm1 imm2 : Immutables) (w : Nat)
    (h : imm1.orderHash = imm2.orderHash) :
    performCrossChainSwapEscrowAddress digest imm1 w =
      performCrossChainSwapEscrowAddress digest imm2 w := by
  unfold performCrossChainSwapEscrowAddress escrowAddressPreimage
  rw [h]

/-- C5 witness: two Immutables differing only in the stamped deployedAt
resolve to the same address. -/
theorem performCrossChainSwapEscrowAddress_depends_only_on_orderHash_witness :
    performCrossChainSwapEscrowAddress Prod.fst sampleImmutables 7 =
      performCrossChainSwapEscrowAddress Prod.fst sampleImmutablesLater 7 :=
  performCrossChainSwapEscrowAddress_depends_only_on_orderHash Prod.fst
    sampleImmutables sampleImmutablesLater 7 (by decide)

/-- C5 counterexample: two distinct Immutables differing exactly in the
deployedAt sub-field of the timelocks produce the identical packed hash
preimage `(orderHash, walletAddress)`, so the derived address cannot change;
the claim that changing any single field (including only deployedAt) yields a
different output address is false. -/
theorem performCrossChainSwapEscrowAddress_ignores_deployedAt :
    escrowAddressPreimage sampleImmutables 7 =
      escrowAddressPreimage sampleImmutablesLater 7 ∧
    sampleImmutables ≠ sampleImmutablesLater ∧
    deployedAtField sampleImmutables.timelocks ≠
      deployedAtField sampleImmutablesLater.timelocks ∧
    ¬ (∀ digest : Nat × Nat → Nat, ∀ imm1 imm2 : Immutables, ∀ w : Nat,
        imm1 ≠ imm2 →
          performCrossChainSwapEscrowAddress digest imm1 w ≠
            performCrossChainSwapEscrowAddress digest imm2 w) := by
  refine ⟨by decide, by decide, by decide, fun h => ?_⟩
  exact h Prod.fst sampleImmutables sampleImmutablesLater 7 (by decide) rfl

/-- C6 (amended): in `performMultipleFillCrossChainSwap` every withdraw call
submits exactly the selected secret together with the immutables and no Merkle
proof: the proof obtained from `Sdk.HashLock.getProof(leaves, idx)` (line 376)
is not an argument of either withdrawal (the escrow ABI takes only
`(bytes32 secret, tuple immutables)`). -/
theorem performMultipleFillCrossChainSwap_withdrawals_carry_no_proof
    (env : MultiFillEnv) (fillAmount selectedSecret : Nat)
    (srcI dstI : Immutables) :
    withdrawPayloadsAre selectedSecret none
      (performMultipleFillCrossChainSwap env fillAmount selectedSecret srcI
        dstI).2 = true := by
  simp only [performMultipleFillCrossChainSwap]
  repeat' split
  all_goals simp [withdrawPayloadsAre, List.all_append]

/-- C6 counterexample: a completed multi-fill run contains withdraw calls and
every one of them carries no proof component, refuting the claim that the
Merkle proof is supplied alongside the secret in both withdrawal calls. -/
theorem performMultipleFillCrossChainSwap_supplies_no_proof :
    hasWithdraw (performMultipleFillCrossChainSwap multiFillHappyEnv 500000 99
      sampleImmutables sampleImmutables).2 = true ∧
    ((performMultipleFillCrossChainSwap multiFillHappyEnv 500000 99
      sampleImmutables sampleImmutables).2.all (fun e =>
        match e with
        | .withdraw _ _ _ _ pr => pr == none
        | _ => true)) = true := by
  decide

/-- C7 (amended): the swap-status query returns the current status, the
amount, the user, the creation time and both escrow addresses as soon as they
are known — but not the stored terminal error message. -/
theorem swapStatusRoute_returns_status_and_addresses (r : Registry)
    (swapId : Nat) (e : SwapEntry) (h : r swapId = some e) :
    swapStatusRoute r swapId = some
      { success := true
        status := e.status
        swapId := swapId
        details :=
          { amount := e.amount
            userAddress := e.userAddress
            createdAt := e.createdAt
            srcEscrowAddress := e.srcEscrowAddress
            dstEscrowAddress := e.dstEscrowAddress } } := by
  unfold swapStatusRoute registryGet
  rw [h]

/-- C7 witness: the status route applied to a stored failed entry returns its
status and escrow addresses. -/
theorem swapStatusRoute_returns_status_and_addresses_witness :
    swapStatusRoute (registrySet emptyRegistry 11 failedEntryA) 11 = some
      { success := true
        status := failedEntryA.status
        swapId := 11
        details :=
          { amount := failedEntryA.amount
            userAddress := failedEntryA.userAddress
            createdAt := failedEntryA.createdAt
            srcEscrowAddress := failedEntryA.srcEscrowAddress
            dstEscrowAddress := failedEntryA.dstEscrowAddress } } :=
  swapStatusRoute_returns_status_and_addresses _ 11 failedEntryA rfl

/-- C7 counterexample: two failed registry entries that differ only in their
terminal error message produce identical status responses, so the status query
does not return the terminal error kind or message of a failed swap. -/
theorem swapStatusRoute_omits_terminal_error :
    failedEntryA.status = "failed" ∧ failedEntryA.error ≠ failedEntryB.error ∧
    swapStatusRoute (registrySet emptyRegistry 11 failedEntryA) 11 =
      swapStatusRoute (registrySet emptyRegistry 11 failedEntryB) 11 := by
  decide

/-- C8 (amended): every entry stored by the create-order handler is keyed by
the order hash and persists the status, the secret, the hashlock, the amount,
the user and both Immutables; the escrow addresses are absent at creation (they
are attached only during execution) and no version counter exists — reads are
last-writer-wins on the shared map. -/
theorem createOrderRoute_registry_shape (r : Registry)
    (orderHash secret hashlock swapAmount userAddress : Nat)
    (raw : RawImmutables) (srcF dstF dstTok sd ts ca : Nat) :
    registryGet (createOrderRoute r orderHash secret hashlock swapAmount
        userAddress raw srcF dstF dstTok sd ts ca) orderHash =
      some (createOrderEntry orderHash secret hashlock swapAmount userAddress
        raw srcF dstF dstTok sd ts ca) ∧
    (createOrderEntry orderHash secret hashlock swapAmount userAddress raw
      srcF dstF dstTok sd ts ca).orderHash = orderHash ∧
    (createOrderEntry orderHash secret hashlock swapAmount userAddress raw
      srcF dstF dstTok sd ts ca).status = "created" ∧
    (createOrderEntry orderHash secret hashlock swapAmount userAddress raw
      srcF dstF dstTok sd ts ca).secret = secret ∧
    (createOrderEntry orderHash secret hashlock swapAmount userAddress raw
      srcF dstF dstTok sd ts ca).srcImmutables = mkSrcImmutables raw sd ts ∧
    (createOrderEntry orderHash secret hashlock swapAmount userAddress raw
      srcF dstF dstTok sd ts ca).dstImmutables =
      mkDstImmutables raw userAddress dstTok swapAmount sd ts := by
  refine ⟨?_, rfl, rfl, rfl, rfl, rfl⟩
  unfold createOrderRoute registryGet registrySet
  simp

/-- C8 counterexample: the entry stored by the create-order handler carries no
escrow address at all (and the stored record has no version counter field),
refuting the claim that every registry entry persists both escrow addresses
and a monotonically increasing version counter. -/
theorem createOrderEntry_lacks_escrow_addresses :
    sampleEntry.srcEscrowAddress = none ∧
    sampleEntry.dstEscrowAddress = none ∧
    sampleEntry.status = "created" := by
  decide

/-- C9 (amended): projecting to the two sides yields Immutables that share
the order hash, the hashlock, the maker, the safety deposit and the identical
deployedAt-stamped timelocks word; they differ in the token (when the two
chain tokens differ), the destination taker is the destination-side user and
the destination amount is the fill amount.  (They do not differ in the
timelocks, contrary to the claim; see the counterexample.) -/
theorem mkSideImmutables_shared_fields (raw : RawImmutables)
    (dstTaker dstTok fillAmount sd ts : Nat) (h : raw.token ≠ dstTok) :
    (mkSrcImmutables raw sd ts).orderHash =
      (mkDstImmutables raw dstTaker dstTok fillAmount sd ts).orderHash ∧
    (mkSrcImmutables raw sd ts).hashlock =
      (mkDstImmutables raw dstTaker dstTok fillAmount sd ts).hashlock ∧
    (mkSrcImmutables raw sd ts).maker =
      (mkDstImmutables raw dstTaker dstTok fillAmount sd ts).maker ∧
    (mkSrcImmutables raw sd ts).safetyDeposit =
      (mkDstImmutables raw dstTaker dstTok fillAmount sd ts).safetyDeposit ∧
    (mkSrcImmutables raw sd ts).timelocks =
      (mkDstImmutables raw dstTaker dstTok fillAmount sd ts).timelocks ∧
    (mkSrcImmutables raw sd ts).token ≠
      (mkDstImmutables raw dstTaker dstTok fillAmount sd ts).token ∧
    (mkDstImmutables raw dstTaker dstTok fillAmount sd ts).taker = dstTaker ∧
    (mkDstImmutables raw dstTaker dstTok fillAmount sd ts).amount =
      fillAmount := by
  refine ⟨rfl, rfl, rfl, rfl, rfl, ?_, rfl, rfl⟩
  simpa [mkSrcImmutables, mkDstImmutables] using h

/-- C9 witness: the sample projection shares order hash, hashlock and
timelocks and differs in the token. -/
theorem mkSideImmutables_shared_fields_witness :
    (mkSrcImmutables sampleRawImmutables 1000000000000000
        1700000000).orderHash =
      (mkDstImmutables sampleRawImmutables 4 6 500000 1000000000000000
        1700000000).orderHash ∧
    (mkSrcImmutables sampleRawImmutables 1000000000000000 1700000000).hashlock
      = (mkDstImmutables sampleRawImmutables 4 6 500000 1000000000000000
        1700000000).hashlock ∧
    (mkSrcImmutables sampleRawImmutables 1000000000000000 1700000000).maker =
      (mkDstImmutables sampleRawImmutables 4 6 500000 1000000000000000
        1700000000).maker ∧
    (mkSrcImmutables sampleRawImmutables 1000000000000000
        1700000000).safetyDeposit =
      (mkDstImmutables sampleRawImmutables 4 6 500000 1000000000000000
        1700000000).safetyDeposit ∧
    (mkSrcImmutables sampleRawImmutables 1000000000000000
        1700000000).timelocks =
      (mkDstImmutables sampleRawImmutables 4 6 500000 1000000000000000
        1700000000).timelocks ∧
    (mkSrcImmutables sampleRawImmutables 1000000000000000 1700000000).token ≠
      (mkDstImmutables sampleRawImmutables 4 6 500000 1000000000000000
        1700000000).token ∧
    (mkDstImmutables sampleRawImmutables 4 6 500000 1000000000000000
      1700000000).taker = 4 ∧
    (mkDstImmutables sampleRawImmutables 4 6 500000 1000000000000000
      1700000000).amount = 500000 :=
  mkSideImmutables_shared_fields sampleRawImmutables 4 6 500000
    1000000000000000 1700000000 (by decide)

/-- C9 counterexample: at the cited call sites (taker argument of
`toSrcImmutables` equal to the user, source amount equal to the fill amount)
the two projected Immutables have identical timelocks, identical taker and
identical amount — they do not differ in taker, amount and the
deployedAt-stamped timelocks as claimed. -/
theorem mkSideImmutables_identical_timelocks :
    (mkSrcImmutables sampleRawImmutables 1000000000000000
        1700000000).timelocks =
      (mkDstImmutables sampleRawImmutables 4 6 500000 1000000000000000
        1700000000).timelocks ∧
    (mkSrcImmutables sampleRawImmutables 1000000000000000 1700000000).taker =
      (mkDstImmutables sampleRawImmutables 4 6 500000 1000000000000000
        1700000000).taker ∧
    (mkSrcImmutables sampleRawImmutables 1000000000000000 1700000000).amount =
      (mkDstImmutables sampleRawImmutables 4 6 500000 1000000000000000
        1700000000).amount ∧
    (mkSrcImmutables sampleRawImmutables 1000000000000000
        1700000000).orderHash =
      (mkDstImmutables sampleRawImmutables 4 6 500000 1000000000000000
        1700000000).orderHash := by
  decide

/-- C10: the order-signing step of arb-sep-mul-fixed.js references the
undeclared identifier `auctionStartTimestamp` (line 375), so every run of
`performMultipleFillCrossChainSwap` in that script raises the reference error
before any escrow is created or any funds move: the trace up to the error
consists of balance reads only. -/
theorem performMultipleFillCrossChainSwapFixed_always_throws
    (env : MultiFillEnv) (swapAmount selectedSecret : Nat)
    (srcI dstI : Immutables) :
    (performMultipleFillCrossChainSwapFixed env swapAmount selectedSecret srcI
      dstI).1 = some "auctionStartTimestamp is not defined" ∧
    hasCreateSrcEscrow (performMultipleFillCrossChainSwapFixed env swapAmount
      selectedSecret srcI dstI).2 = false ∧
    hasWithdraw (performMultipleFillCrossChainSwapFixed env swapAmount
      selectedSecret srcI dstI).2 = false ∧
    ((performMultipleFillCrossChainSwapFixed env swapAmount selectedSecret
      srcI dstI).2.all (fun e =>
        match e with
        | .readBalance _ _ _ => true
        | _ => false)) = true := by
  refine ⟨rfl, ?_, ?_, ?_⟩ <;>
    simp [performMultipleFillCrossChainSwapFixed, signFixedOrder,
      hasCreateSrcEscrow, hasWithdraw, isCreateSrcEscrowEvent, isWithdrawEvent]

end CrossSwap
